import Mathlib

/-!
# Avogadro: manipulation tool and GL widget

A shallow embedding of

* `avogadro/qtplugins/manipulator/manipulator.cpp` (the `Manipulator` tool), and
* `avogadro/qtopengl/glwidget.cpp` (the `GLWidget` event dispatch, tool roles
  and scene rebuild),

followed by theorems about the embedded functions.

Conventions.

* Coordinates live in a scalar type `K`.  Nothing is assumed about `K` beyond
  the operations a function really uses, so the translation results hold for
  any addition whatsoever; the rotation results are stated over `ℝ`.
* A pointer that may be null is an `Option`; dereferencing a null pointer is
  the `Except.error Fault.nullDereference` branch.
* Qt objects that the C++ mutates through pointers (the molecule, the event's
  accepted flag) are threaded through explicitly.
-/

namespace Avogadro

/-! ## Vectors and matrices (Eigen) -/

/-- Three-component vector, `Eigen::Vector3d` / `Vector3f`. -/
@[ext]
structure Vector3 (K : Type) where
  x : K
  y : K
  z : K
deriving DecidableEq, Repr

/-- Two-component vector, `Vector2f` (window coordinates). -/
structure Vector2 (K : Type) where
  x : K
  y : K
deriving DecidableEq, Repr

namespace Vector3

variable {K : Type}

instance [Zero K] : Zero (Vector3 K) := ⟨⟨0, 0, 0⟩⟩

instance [Add K] : Add (Vector3 K) := ⟨fun a b => ⟨a.x + b.x, a.y + b.y, a.z + b.z⟩⟩

instance [Sub K] : Sub (Vector3 K) := ⟨fun a b => ⟨a.x - b.x, a.y - b.y, a.z - b.z⟩⟩

instance [Neg K] : Neg (Vector3 K) := ⟨fun a => ⟨-a.x, -a.y, -a.z⟩⟩

/-- Vector times scalar, `v * s`. -/
def scale [Mul K] (v : Vector3 K) (s : K) : Vector3 K := ⟨v.x * s, v.y * s, v.z * s⟩

/-- Vector divided by scalar, `v / s` and `v /= s`. -/
def divScalar [Div K] (v : Vector3 K) (s : K) : Vector3 K := ⟨v.x / s, v.y / s, v.z / s⟩

/-- Squared Euclidean norm, `squaredNorm()`. -/
def squaredNorm [Add K] [Mul K] (v : Vector3 K) : K := v.x * v.x + v.y * v.y + v.z * v.z

/-- Dot product. -/
def dot [Add K] [Mul K] (a b : Vector3 K) : K := a.x * b.x + a.y * b.y + a.z * b.z

end Vector3

/-- A 3x3 matrix given by its three rows (the linear part of a transform). -/
structure Matrix3 (K : Type) where
  row0 : Vector3 K
  row1 : Vector3 K
  row2 : Vector3 K
deriving DecidableEq, Repr

namespace Matrix3

variable {K : Type}

/-- The identity matrix. -/
def identity [Zero K] [One K] : Matrix3 K := ⟨⟨1, 0, 0⟩, ⟨0, 1, 0⟩, ⟨0, 0, 1⟩⟩

/-- First column. -/
def col0 (m : Matrix3 K) : Vector3 K := ⟨m.row0.x, m.row1.x, m.row2.x⟩

/-- Second column. -/
def col1 (m : Matrix3 K) : Vector3 K := ⟨m.row0.y, m.row1.y, m.row2.y⟩

/-- Third column. -/
def col2 (m : Matrix3 K) : Vector3 K := ⟨m.row0.z, m.row1.z, m.row2.z⟩

/-- Matrix times column vector. -/
def mulVec [Add K] [Mul K] (m : Matrix3 K) (v : Vector3 K) : Vector3 K :=
  ⟨m.row0.dot v, m.row1.dot v, m.row2.dot v⟩

/-- Matrix product `a * b`. -/
def mul [Add K] [Mul K] (a b : Matrix3 K) : Matrix3 K :=
  ⟨⟨a.row0.dot b.col0, a.row0.dot b.col1, a.row0.dot b.col2⟩,
   ⟨a.row1.dot b.col0, a.row1.dot b.col1, a.row1.dot b.col2⟩,
   ⟨a.row2.dot b.col0, a.row2.dot b.col1, a.row2.dot b.col2⟩⟩

end Matrix3

/-! ## Rotations and transforms (Eigen) -/

section Eigen

variable {K : Type}

/-- The elementary functions the rotation code calls (`cos`, `sin`, `sqrt`).
Over `ℝ` these are `Real.cos`, `Real.sin` and `Real.sqrt`. -/
structure MathFns (K : Type) where
  cos : K → K
  sin : K → K
  sqrt : K → K

/-- Eigen's `normalized()`: divide by the norm when the squared norm is
positive, otherwise return the vector as it is. -/
def normalized [LinearOrderedField K] (F : MathFns K) (v : Vector3 K) : Vector3 K :=
  if 0 < v.squaredNorm then v.divScalar (F.sqrt v.squaredNorm) else v

/-- Eigen's `AngleAxis::toRotationMatrix()` for angle `angle` about `axis`. -/
def angleAxis [Field K] (F : MathFns K) (angle : K) (axis : Vector3 K) : Matrix3 K :=
  let sinAxis : Vector3 K := ⟨F.sin angle * axis.x, F.sin angle * axis.y, F.sin angle * axis.z⟩
  let c : K := F.cos angle
  let cos1Axis : Vector3 K := ⟨(1 - c) * axis.x, (1 - c) * axis.y, (1 - c) * axis.z⟩
  let t01 : K := cos1Axis.x * axis.y
  let t02 : K := cos1Axis.x * axis.z
  let t12 : K := cos1Axis.y * axis.z
  ⟨⟨cos1Axis.x * axis.x + c, t01 - sinAxis.z, t02 + sinAxis.y⟩,
   ⟨t01 + sinAxis.z, cos1Axis.y * axis.y + c, t12 - sinAxis.x⟩,
   ⟨t02 - sinAxis.y, t12 + sinAxis.x, cos1Axis.z * axis.z + c⟩⟩

/-- An `Eigen::Projective3d` whose bottom row is `(0, 0, 0, 1)`, which is what
`setIdentity` followed by `translation() =`, `rotate` and `translate` keep it
to be: the 3x3 linear block and the translation column. -/
structure Transform (K : Type) where
  linear : Matrix3 K
  translation : Vector3 K
deriving DecidableEq, Repr

namespace Transform

/-- The transform after `matrix().setIdentity()`. -/
def identity [Zero K] [One K] : Transform K := ⟨Matrix3.identity, 0⟩

/-- Assignment `translation() = v`. -/
def setTranslation (t : Transform K) (v : Vector3 K) : Transform K :=
  { t with translation := v }

/-- Eigen's `rotate(r)`: multiply the linear block by `r` on the right. -/
def rotate [Add K] [Mul K] (t : Transform K) (r : Matrix3 K) : Transform K :=
  { t with linear := t.linear.mul r }

/-- Eigen's `translate(v)`: add `linear * v` to the translation column. -/
def translate [Add K] [Mul K] (t : Transform K) (v : Vector3 K) : Transform K :=
  { t with translation := t.translation + t.linear.mulVec v }

/-- The product `(t * p.homogeneous()).head<3>()`. -/
def apply [Add K] [Mul K] (t : Transform K) (p : Vector3 K) : Vector3 K :=
  t.linear.mulVec p + t.translation

end Transform

end Eigen

/-! ## The molecule (`QtGui::RWMolecule` over `QtGui::Molecule`) -/

/-- One atom of the data model: its 3D position and its selection flag. -/
structure Atom (K : Type) where
  position3d : Vector3 K
  selected : Bool
deriving DecidableEq, Repr

/-- The data model the tool edits.  `ident` stands for the address of the
underlying `Core::Molecule` (what `Rendering::Identifier::molecule` is compared
with), `interactive` is the interactive hint and `changed` counts the
`emitChanged` notifications. -/
structure Molecule (K : Type) where
  ident : Nat
  atoms : List (Atom K)
  interactive : Bool
  changed : Nat
deriving DecidableEq, Repr

namespace Molecule

variable {K : Type}

/-- Number of atoms, `atomCount()`. -/
def atomCount (m : Molecule K) : Nat := m.atoms.length

/-- Selection flag of atom `i`, `atomSelected(i)`; false past the end. -/
def atomSelected (m : Molecule K) (i : Nat) : Bool :=
  match m.atoms[i]? with
  | some a => a.selected
  | none => false

/-- Position of atom `i`, `atomPosition3d(i)`; the zero vector past the end. -/
def atomPosition3d [Zero K] (m : Molecule K) (i : Nat) : Vector3 K :=
  match m.atoms[i]? with
  | some a => a.position3d
  | none => 0

/-- Overwrite the position of atom `i`, `setAtomPosition3d(i, pos)`. -/
def setAtomPosition3d (m : Molecule K) (i : Nat) (pos : Vector3 K) : Molecule K :=
  match m.atoms[i]? with
  | some a => { m with atoms := m.atoms.set i { a with position3d := pos } }
  | none => m

/-- No atom is selected, `isSelectionEmpty()`. -/
def isSelectionEmpty (m : Molecule K) : Bool := m.atoms.all (fun a => !a.selected)

/-- Set the interactive hint, `setInteractive(b)`. -/
def setInteractive (m : Molecule K) (b : Bool) : Molecule K := { m with interactive := b }

/-- Emit one change notification, `emitChanged(...)`. -/
def emitChanged (m : Molecule K) : Molecule K := { m with changed := m.changed + 1 }

end Molecule

/-! ## Rendering collaborators -/

/-- Kind of a picked primitive, `Rendering::Type`. -/
inductive PrimitiveType where
  | InvalidType
  | AtomType
  | BondType
deriving DecidableEq, Repr

/-- Result of a hit test, `Rendering::Identifier`: the kind of primitive, the
address of the molecule it belongs to (null when there is none) and its index. -/
structure Identifier where
  type : PrimitiveType
  molecule : Option Nat
  index : Nat
deriving DecidableEq, Repr

/-- The default-constructed identifier: nothing picked. -/
def Identifier.invalid : Identifier := ⟨PrimitiveType.InvalidType, none, 0⟩

/-- The camera: the linear part of its model-view transform and its two
unprojection functions (window position, and window position at the depth of
a reference point). -/
structure Camera (K : Type) where
  modelView : Matrix3 K
  unProject : Vector2 K → Vector3 K
  unProjectAt : Vector2 K → Vector3 K → Vector3 K

/-- The renderer as the tool sees it: a camera and the hit test. -/
structure GLRenderer (K : Type) where
  camera : Camera K
  hit : Int → Int → Identifier

/-! ## Qt events -/

/-- A `QEvent`: its accepted flag, and the read-only data it carries. -/
structure QEvent (D : Type) where
  data : D
  accepted : Bool
deriving DecidableEq, Repr

namespace QEvent

variable {D : Type}

/-- Qt's `accept()`. -/
def accept (e : QEvent D) : QEvent D := { e with accepted := true }

/-- Qt's `ignore()`. -/
def ignore (e : QEvent D) : QEvent D := { e with accepted := false }

/-- Qt's `isAccepted()`. -/
def isAccepted (e : QEvent D) : Bool := e.accepted

end QEvent

/-- What a `QMouseEvent` carries: the mask of buttons held when the event was
generated (`buttons()`), the button that caused it (`button()`), the keyboard
modifiers (`modifiers()`, compared as a whole mask) and the pointer position
(`pos()` in integer pixels, `localPos()` as window coordinates). -/
structure MouseData (K : Type) where
  buttons : Nat
  button : Nat
  modifiers : Nat
  pos : Int × Int
  localPos : Vector2 K
deriving DecidableEq, Repr

/-- A mouse event. -/
abbrev QMouseEvent (K : Type) : Type := QEvent (MouseData K)

/-- The value of `Qt::NoButton`. -/
def Qt.NoButton : Nat := 0

/-- The value of `Qt::LeftButton`. -/
def Qt.LeftButton : Nat := 1

/-- The value of `Qt::RightButton`. -/
def Qt.RightButton : Nat := 2

/-- The value of `Qt::MiddleButton`. -/
def Qt.MiddleButton : Nat := 4

/-- The value of `Qt::NoModifier`. -/
def Qt.NoModifier : Nat := 0

/-- The value of `Qt::ShiftModifier`. -/
def Qt.ShiftModifier : Nat := 0x02000000

/-- The value of `Qt::ControlModifier`. -/
def Qt.ControlModifier : Nat := 0x04000000

/-- The value of `Qt::AltModifier`. -/
def Qt.AltModifier : Nat := 0x08000000

/-- The value of `Qt::MetaModifier`. -/
def Qt.MetaModifier : Nat := 0x10000000

/-- A flags value tested as a condition, `if (flags & bit)`. -/
def Qt.testFlag (flags bit : Nat) : Bool := (flags &&& bit) != 0

/-! ## The manipulator tool -/

/-- What a null pointer dereference does. -/
inductive Fault where
  | nullDereference
deriving DecidableEq, Repr

/-- The manipulation mode, `Manipulator::ToolAction`. -/
inductive ToolAction where
  | Nothing
  | Translation
  | Rotation
  | ZoomTilt
deriving DecidableEq, Repr

/-- Fields of `Manipulator` that the handlers read and write. -/
structure Manipulator (K : Type) where
  m_molecule : Option (Molecule K)
  m_renderer : Option (GLRenderer K)
  m_pressedButtons : Nat
  m_currentAction : ToolAction
  m_object : Identifier
  m_lastMousePosition : Int × Int
  m_lastMouse3D : Vector3 K

namespace Manipulator

variable {K : Type}

/-- Body of the loop of `Manipulator::translate` for index `i`. -/
def translateStep [Zero K] [Add K] (delta : Vector3 K) (m : Molecule K) (i : Nat) :
    Molecule K :=
  if !m.atomSelected i then m
  else m.setAtomPosition3d i (m.atomPosition3d i + delta)

/-- `Manipulator::translate`: add `delta` to the position of every selected
atom, in index order.  Faults when `m_molecule` is null. -/
def translate [Zero K] [Add K] (delta : Vector3 K) (s : Manipulator K) :
    Except Fault (Manipulator K) :=
  match s.m_molecule with
  | none => .error .nullDereference
  | some mol =>
    .ok { s with
      m_molecule := some ((List.range mol.atomCount).foldl (translateStep delta) mol) }

/-- The constant `ROTATION_SPEED` (0.5). -/
def ROTATION_SPEED [Field K] : K := 1 / 2

/-- The constant `DEG_TO_RAD` (0.0174532925). -/
def DEG_TO_RAD [Field K] : K := 174532925 / 10000000000

/-- Body of the loops of `Manipulator::rotate` and `Manipulator::tilt` for
index `i`: a selected atom is sent through `fragmentRotation`. -/
def rotateStep [Zero K] [Add K] [Mul K] (fragmentRotation : Transform K) (m : Molecule K)
    (i : Nat) : Molecule K :=
  if !m.atomSelected i then m
  else m.setAtomPosition3d i (fragmentRotation.apply (m.atomPosition3d i))

/-- The transform `Manipulator::rotate` builds: about `centroid`, first the
angle `delta.y * ROTATION_SPEED` about the view X axis, then the angle
`delta.x * ROTATION_SPEED` about the view Y axis. -/
def rotateTransform [LinearOrderedField K] (F : MathFns K) (modelView : Matrix3 K)
    (delta centroid : Vector3 K) : Transform K :=
  let backTransformX := normalized F modelView.row0
  let backTransformY := normalized F modelView.row1
  let fragmentRotation : Transform K := Transform.identity
  let fragmentRotation := fragmentRotation.setTranslation centroid
  let fragmentRotation :=
    fragmentRotation.rotate (angleAxis F (delta.y * ROTATION_SPEED) backTransformX)
  let fragmentRotation :=
    fragmentRotation.rotate (angleAxis F (delta.x * ROTATION_SPEED) backTransformY)
  fragmentRotation.translate (-centroid)

/-- `Manipulator::rotate`.  Faults when `m_renderer` or `m_molecule` is null. -/
def rotate [LinearOrderedField K] (F : MathFns K) (delta centroid : Vector3 K)
    (s : Manipulator K) : Except Fault (Manipulator K) :=
  match s.m_renderer with
  | none => .error .nullDereference
  | some renderer =>
    let fragmentRotation := rotateTransform F renderer.camera.modelView delta centroid
    match s.m_molecule with
    | none => .error .nullDereference
    | some mol =>
      .ok { s with
        m_molecule :=
          some ((List.range mol.atomCount).foldl (rotateStep fragmentRotation) mol) }

/-- The transform `Manipulator::tilt` builds: about `centroid`, the angle
`delta.x * ROTATION_SPEED` about the view Z axis. -/
def tiltTransform [LinearOrderedField K] (F : MathFns K) (modelView : Matrix3 K)
    (delta centroid : Vector3 K) : Transform K :=
  let backTransformZ := normalized F modelView.row2
  let fragmentRotation : Transform K := Transform.identity
  let fragmentRotation := fragmentRotation.setTranslation centroid
  let fragmentRotation :=
    fragmentRotation.rotate (angleAxis F (delta.x * ROTATION_SPEED) backTransformZ)
  fragmentRotation.translate (-centroid)

/-- `Manipulator::tilt`.  Faults when `m_renderer` or `m_molecule` is null. -/
def tilt [LinearOrderedField K] (F : MathFns K) (delta centroid : Vector3 K)
    (s : Manipulator K) : Except Fault (Manipulator K) :=
  match s.m_renderer with
  | none => .error .nullDereference
  | some renderer =>
    let fragmentRotation := tiltTransform F renderer.camera.modelView delta centroid
    match s.m_molecule with
    | none => .error .nullDereference
    | some mol =>
      .ok { s with
        m_molecule :=
          some ((List.range mol.atomCount).foldl (rotateStep fragmentRotation) mol) }

/-! ### Centre of the selection -/

/-- Body of the centroid loops (in `buttonClicked` and in `mouseMoveEvent`):
a selected atom adds its position to the accumulator and bumps the count. -/
def centroidStep [Zero K] [Add K] (m : Molecule K) (acc : Vector3 K × Nat) (i : Nat) :
    Vector3 K × Nat :=
  if !m.atomSelected i then acc
  else (acc.1 + m.atomPosition3d i, acc.2 + 1)

/-- The centroid loop followed by its guarded division, started from the
accumulator value `start`:
`for (...) { center += pos; selectedAtomCount++; }`
`if (selectedAtomCount > 0) center /= selectedAtomCount;`. -/
def selectionCentroid [Zero K] [Add K] [Div K] [NatCast K] (m : Molecule K)
    (start : Vector3 K) : Vector3 K :=
  let acc := (List.range m.atomCount).foldl (centroidStep m) (start, 0)
  if 0 < acc.2 then acc.1.divScalar (acc.2 : K) else acc.1

/-! ### Pointer handlers -/

/-- `Manipulator::updatePressedButtons`: fold the event's buttons into the
pressed mask, then derive the mode from the event's buttons and modifiers;
when no branch applies the mode is left as it was. -/
def updatePressedButtons (e : QMouseEvent K) (release : Bool) (s : Manipulator K) :
    Manipulator K :=
  let pressed :=
    if release then s.m_pressedButtons &&& e.data.buttons
    else s.m_pressedButtons ||| e.data.buttons
  let action :=
    if Qt.testFlag e.data.buttons Qt.LeftButton && e.data.modifiers == Qt.NoModifier then
      ToolAction.Translation
    else if Qt.testFlag e.data.buttons Qt.MiddleButton ||
        (Qt.testFlag e.data.buttons Qt.LeftButton &&
          e.data.modifiers == Qt.ShiftModifier) then
      ToolAction.ZoomTilt
    else if Qt.testFlag e.data.buttons Qt.RightButton ||
        (Qt.testFlag e.data.buttons Qt.LeftButton &&
          (e.data.modifiers == Qt.ControlModifier ||
            e.data.modifiers == Qt.MetaModifier)) then
      ToolAction.Rotation
    else s.m_currentAction
  { s with m_pressedButtons := pressed, m_currentAction := action }

/-- The assignment `m_object = Rendering::Identifier()` of `resetObject()`. -/
def resetObject (s : Manipulator K) : Manipulator K :=
  { s with m_object := Identifier.invalid }

/-- `Manipulator::mousePressEvent`.  Returns the event (with its accepted
flag as the handler leaves it) and the new tool state. -/
def mousePressEvent (e : QMouseEvent K) (s : Manipulator K) :
    Except Fault (QMouseEvent K × Manipulator K) :=
  match s.m_renderer with
  | none => .ok (e, s)
  | some renderer =>
    let s := updatePressedButtons e false s
    let s := { s with m_lastMousePosition := e.data.pos }
    let windowPos := e.data.localPos
    let s := { s with m_lastMouse3D := renderer.camera.unProject windowPos }
    let s :=
      match s.m_molecule with
      | some mol => { s with m_molecule := some (mol.setInteractive true) }
      | none => s
    if Qt.testFlag s.m_pressedButtons Qt.LeftButton then
      let s := { s with m_object := renderer.hit e.data.pos.1 e.data.pos.2 }
      match s.m_object.type with
      | PrimitiveType.AtomType => .ok (e.accept, s)
      | _ => .ok (e, s)
    else .ok (e, s)

/-- `Manipulator::mouseReleaseEvent`. -/
def mouseReleaseEvent (e : QMouseEvent K) (s : Manipulator K) :
    Except Fault (QMouseEvent K × Manipulator K) :=
  match s.m_renderer with
  | none => .ok (e, s)
  | some _ =>
    let s := updatePressedButtons e true s
    if s.m_object.type == PrimitiveType.InvalidType then .ok (e, s)
    else
      let s :=
        match s.m_molecule with
        | some mol => { s with m_molecule := some (mol.setInteractive false) }
        | none => s
      if e.data.button == Qt.LeftButton || e.data.button == Qt.RightButton then
        .ok (e.accept, resetObject s)
      else .ok (e, s)

/-- `Manipulator::mouseMoveEvent`.  The molecule and the renderer are
dereferenced without a null check, so a null one is a fault. -/
def mouseMoveEvent [LinearOrderedField K] (F : MathFns K) (e : QMouseEvent K)
    (s : Manipulator K) : Except Fault (QMouseEvent K × Manipulator K) :=
  let s := updatePressedButtons e false s
  let e := e.ignore
  match s.m_molecule with
  | none => .error .nullDereference
  | some mol =>
    let windowPos := e.data.localPos
    let moved : Except Fault (Manipulator K) :=
      if mol.isSelectionEmpty && s.m_object.type == PrimitiveType.AtomType &&
          s.m_object.molecule == some mol.ident then
        match s.m_renderer with
        | none => .error .nullDereference
        | some renderer =>
          let oldPos := mol.atomPosition3d s.m_object.index
          let newPos := renderer.camera.unProjectAt windowPos oldPos
          .ok { s with m_molecule := some (mol.setAtomPosition3d s.m_object.index newPos) }
      else if !mol.isSelectionEmpty then
        match s.m_renderer with
        | none => .error .nullDereference
        | some renderer =>
          let newPos := renderer.camera.unProject windowPos
          let delta := newPos - s.m_lastMouse3D
          let applied : Except Fault (Manipulator K) :=
            if s.m_currentAction == ToolAction.Translation then translate delta s
            else
              let centroid := selectionCentroid mol 0
              if s.m_currentAction == ToolAction.Rotation then rotate F delta centroid s
              else if s.m_currentAction == ToolAction.ZoomTilt then tilt F delta centroid s
              else .ok s
          match applied with
          | .error f => .error f
          | .ok s => .ok { s with m_lastMouse3D := newPos }
      else .ok s
    match moved with
    | .error f => .error f
    | .ok s =>
      match s.m_molecule with
      | none => .error .nullDereference
      | some mol => .ok (e.accept, { s with m_molecule := some mol.emitChanged })

/-! ### The manual dialog -/

/-- The values of the tool widget that `buttonClicked` reads: the three
translation and the three rotation spin boxes, the index chosen in the
centre-selection box and the index chosen in the atom-selection box. -/
structure ManipulateWidget (K : Type) where
  xTranslate : K
  yTranslate : K
  zTranslate : K
  xRotate : K
  yRotate : K
  zRotate : K
  centerSelectionIndex : Int
  atomSelectionIndex : Nat
deriving DecidableEq, Repr

/-- The `switch` of `Manipulator::buttonClicked` that chooses the rotation
centre.  No `case` ends in a `break`, so control entering at `case 0` runs the
bodies of `case 0`, `case 1` and `case 2`, control entering at `case 1` runs
those of `case 1` and `case 2`, and any other index runs none of them.
`centerOfGeometry` is the value of `molecule().centerOfGeometry()`. -/
def rotationCenter [Zero K] [Add K] [Div K] [NatCast K] (centerOfGeometry : Vector3 K)
    (mol : Molecule K) (centerSelectionIndex : Int) (atomSelectionIndex : Nat) :
    Vector3 K :=
  let center : Vector3 K := ⟨0, 0, 0⟩
  -- case 0:
  let center := if centerSelectionIndex = 0 then centerOfGeometry else center
  -- case 1:
  let center :=
    if centerSelectionIndex = 0 ∨ centerSelectionIndex = 1 then selectionCentroid mol center
    else center
  -- case 2:
  let center :=
    if centerSelectionIndex = 0 ∨ centerSelectionIndex = 1 ∨ centerSelectionIndex = 2 then
      mol.atomPosition3d atomSelectionIndex
    else center
  center

/-- `Manipulator::buttonClicked`.  `apply` says whether the clicked button has
the Apply role; otherwise the spin boxes are reset to zero.  `centerOfGeometry`
stands for `Core::Molecule::centerOfGeometry`. -/
def buttonClicked [LinearOrderedField K] (F : MathFns K)
    (centerOfGeometry : Molecule K → Vector3 K) (apply : Bool)
    (toolWidget : Option (ManipulateWidget K)) (s : Manipulator K) :
    Except Fault (Option (ManipulateWidget K) × Manipulator K) :=
  match toolWidget with
  | none => .ok (none, s)
  | some tw =>
    if !apply then
      .ok (some { tw with xTranslate := 0, yTranslate := 0, zTranslate := 0,
                          xRotate := 0, yRotate := 0, zRotate := 0 }, s)
    else
      let delta : Vector3 K := ⟨tw.xTranslate, tw.yTranslate, tw.zTranslate⟩
      match translate delta s with
      | .error f => .error f
      | .ok s =>
        let rotation : Vector3 K := ⟨tw.xRotate, tw.yRotate, tw.zRotate⟩
        match s.m_molecule with
        | none => .error .nullDereference
        | some mol =>
          let center :=
            rotationCenter (centerOfGeometry mol) mol tw.centerSelectionIndex
              tw.atomSelectionIndex
          match rotate F (rotation.scale DEG_TO_RAD) center s with
          | .error f => .error f
          | .ok s =>
            match s.m_molecule with
            | none => .error .nullDereference
            | some mol => .ok (some tw, { s with m_molecule := some mol.emitChanged })

end Manipulator

/-! ## The GL widget -/

/-- A tool is named by the address of its `QtGui::ToolPlugin` object. -/
abbrev ToolId : Type := Nat

/-- A scene plugin is named by the address of its `QtGui::ScenePlugin` object. -/
abbrev PluginId : Type := Nat

/-- What name lookup reads from a tool: `objectName()`, `name()` and the text
of `activateAction()` (`none` when the action pointer is null). -/
structure ToolPlugin where
  objectName : String
  name : String
  activateActionText : Option String
deriving DecidableEq, Repr

/-- Fields of `GLWidget`, with the signal connections it makes spelled out:
`drawablesChangedConnections` holds one entry per live connection from a
tool's `drawablesChanged` to `updateScene`, `updateRequestedConnections` one
per live connection from a tool's `updateRequested` to `requestUpdate`.
`M` is the type of the molecule. -/
structure GLWidget (M : Type) where
  m_molecule : Option M
  m_tools : List ToolId
  m_activeTool : Option ToolId
  m_defaultTool : Option ToolId
  activeScenePlugins : List PluginId
  drawablesChangedConnections : List ToolId
  updateRequestedConnections : List ToolId
deriving DecidableEq, Repr

namespace GLWidget

variable {M : Type}

/-- The widget as its constructor leaves it. -/
def init : GLWidget M :=
  { m_molecule := none, m_tools := [], m_activeTool := none, m_defaultTool := none,
    activeScenePlugins := [], drawablesChangedConnections := [],
    updateRequestedConnections := [] }

/-- Qt's `connect` of a tool's `drawablesChanged` to `updateScene`: one more
connection, whether or not one exists already. -/
def connectDrawablesChanged (tool : ToolId) (w : GLWidget M) : GLWidget M :=
  { w with drawablesChangedConnections := w.drawablesChangedConnections ++ [tool] }

/-- Qt's `disconnect` of a tool's `drawablesChanged` from `updateScene`: every
such connection goes. -/
def disconnectDrawablesChanged (tool : ToolId) (w : GLWidget M) : GLWidget M :=
  { w with
    drawablesChangedConnections := w.drawablesChangedConnections.filter (fun t => t != tool) }

/-- `GLWidget::addTool`: a tool not yet in the registry is connected and
appended; a registered tool is left alone. -/
def addTool (tool : ToolId) (w : GLWidget M) : GLWidget M :=
  if w.m_tools.contains tool then w
  else
    { w with
      updateRequestedConnections := w.updateRequestedConnections ++ [tool],
      m_tools := w.m_tools ++ [tool] }

/-- `GLWidget::setActiveTool(QtGui::ToolPlugin*)`; `none` is the null pointer. -/
def setActiveTool (tool : Option ToolId) (w : GLWidget M) : GLWidget M :=
  if tool = w.m_activeTool then w
  else
    let w :=
      match w.m_activeTool with
      | some active =>
        if w.m_activeTool ≠ w.m_defaultTool then disconnectDrawablesChanged active w else w
      | none => w
    let w :=
      match tool with
      | some t => addTool t w
      | none => w
    let w := { w with m_activeTool := tool }
    match w.m_activeTool with
    | some active =>
      if w.m_activeTool ≠ w.m_defaultTool then connectDrawablesChanged active w else w
    | none => w

/-- `GLWidget::setDefaultTool(QtGui::ToolPlugin*)`; `none` is the null pointer. -/
def setDefaultTool (tool : Option ToolId) (w : GLWidget M) : GLWidget M :=
  if tool = w.m_defaultTool then w
  else
    let w :=
      match w.m_defaultTool with
      | some dflt =>
        if w.m_activeTool ≠ w.m_defaultTool then disconnectDrawablesChanged dflt w else w
      | none => w
    let w :=
      match tool with
      | some t => addTool t w
      | none => w
    let w := { w with m_defaultTool := tool }
    match w.m_defaultTool with
    | some dflt =>
      if w.m_activeTool ≠ w.m_defaultTool then connectDrawablesChanged dflt w else w
    | none => w

/-- The test of `GLWidget::setActiveTool(const QString&)` on one tool. -/
def activeNameMatches (tool : ToolPlugin) (name : String) : Bool :=
  tool.objectName == name ||
    (match tool.activateActionText with
     | some text => text == name
     | none => false)

/-- The test of `GLWidget::setDefaultTool(const QString&)` on one tool. -/
def defaultNameMatches (tool : ToolPlugin) (name : String) : Bool :=
  tool.objectName == name || tool.name == name ||
    (match tool.activateActionText with
     | some text => text == name
     | none => false)

/-- `GLWidget::setActiveTool(const QString&)`: the first registered tool that
passes the test becomes the active tool; `tools` reads a tool's attributes. -/
def setActiveToolByName (tools : ToolId → ToolPlugin) (name : String) (w : GLWidget M) :
    GLWidget M :=
  match w.m_tools.find? (fun t => activeNameMatches (tools t) name) with
  | some tool => setActiveTool (some tool) w
  | none => w

/-- `GLWidget::setDefaultTool(const QString&)`: the first registered tool that
passes the test becomes the default tool. -/
def setDefaultToolByName (tools : ToolId → ToolPlugin) (name : String) (w : GLWidget M) :
    GLWidget M :=
  match w.m_tools.find? (fun t => defaultNameMatches (tools t) name) with
  | some tool => setDefaultTool (some tool) w
  | none => w

end GLWidget

/-! ### Scene rebuild -/

/-- Who a child container of the molecule node was created for. -/
inductive GroupOwner where
  | engine (plugin : PluginId)
  | tool (tool : ToolId)
deriving DecidableEq, Repr

/-- A call `updateScene` makes on a collaborator.  `process` and
`processEditable` carry the molecule they are handed. -/
inductive SceneCall (M : Type) where
  | process (plugin : PluginId) (mol : M)
  | processEditable (plugin : PluginId) (mol : M)
  | draw (tool : ToolId)
  | resetGeometry
  | update
deriving DecidableEq, Repr

/-- The rebuilt tree and the calls made while building it.  The root node has
one child, the molecule node; `moleculeNode` lists the child containers of the
molecule node in creation order. -/
structure SceneBuild (M : Type) where
  moleculeNode : List GroupOwner
  calls : List (SceneCall M)
deriving DecidableEq, Repr

namespace GLWidget

variable {M : Type}

/-- `GLWidget::updateScene`.  `fresh` is the molecule `new QtGui::Molecule`
makes when the widget has none. -/
def updateScene (fresh : M) (w : GLWidget M) : SceneBuild M :=
  let mol : M :=
    match w.m_molecule with
    | some m => m
    | none => fresh
  let b : SceneBuild M := ⟨[], []⟩
  let b : SceneBuild M :=
    w.activeScenePlugins.foldl
      (fun b scenePlugin =>
        { moleculeNode := b.moleculeNode ++ [GroupOwner.engine scenePlugin],
          calls := b.calls ++
            [SceneCall.process scenePlugin mol, SceneCall.processEditable scenePlugin mol] })
      b
  let b : SceneBuild M :=
    match w.m_activeTool with
    | some active =>
      { moleculeNode := b.moleculeNode ++ [GroupOwner.tool active],
        calls := b.calls ++ [SceneCall.draw active] }
    | none => b
  let b : SceneBuild M :=
    match w.m_defaultTool with
    | some dflt =>
      { moleculeNode := b.moleculeNode ++ [GroupOwner.tool dflt],
        calls := b.calls ++ [SceneCall.draw dflt] }
    | none => b
  { b with calls := b.calls ++ [SceneCall.resetGeometry, SceneCall.update] }

end GLWidget

/-! ### Event dispatch -/

/-- The seven event handlers of `GLWidget`. -/
inductive EventKind where
  | mouseDoubleClick
  | mousePress
  | mouseMove
  | mouseRelease
  | wheel
  | keyPress
  | keyRelease
deriving DecidableEq, Repr

/-- Who a dispatch invoked: the active tool, the default tool, or the handler
of the base class `QOpenGLWidget`. -/
inductive Callee where
  | activeTool
  | defaultTool
  | baseWidget
deriving DecidableEq, Repr

/-- The handlers a dispatch can call.  `tool t k` is handler `k` of tool `t`,
`base k` is `QOpenGLWidget`'s handler `k`; each may change the event's accepted
flag and the state `S` of the rest of the program. -/
structure Handlers (D S : Type) where
  tool : ToolId → EventKind → QEvent D → S → QEvent D × S
  base : EventKind → QEvent D → S → QEvent D × S

/-- Where a dispatch stands: the event, the program state, and the handlers
invoked so far, oldest first. -/
structure Dispatch (D S : Type) where
  event : QEvent D
  state : S
  invoked : List Callee

namespace GLWidget

variable {M D S : Type}

/-- The body shared by the seven handlers, for handler `k`. -/
def dispatchEvent (h : Handlers D S) (k : EventKind) (w : GLWidget M) (e : QEvent D)
    (s : S) : Dispatch D S :=
  let d : Dispatch D S := ⟨e.ignore, s, []⟩
  let d :=
    match w.m_activeTool with
    | some active =>
      let r := h.tool active k d.event d.state
      ⟨r.1, r.2, d.invoked ++ [Callee.activeTool]⟩
    | none => d
  let d :=
    match w.m_defaultTool with
    | some dflt =>
      if !d.event.isAccepted then
        let r := h.tool dflt k d.event d.state
        ⟨r.1, r.2, d.invoked ++ [Callee.defaultTool]⟩
      else d
    | none => d
  if !d.event.isAccepted then
    let r := h.base k d.event d.state
    ⟨r.1, r.2, d.invoked ++ [Callee.baseWidget]⟩
  else d

/-- `GLWidget::mouseDoubleClickEvent`. -/
def mouseDoubleClickEvent (h : Handlers D S) (w : GLWidget M) (e : QEvent D) (s : S) :
    Dispatch D S :=
  dispatchEvent h EventKind.mouseDoubleClick w e s

/-- `GLWidget::mousePressEvent`. -/
def mousePressEvent (h : Handlers D S) (w : GLWidget M) (e : QEvent D) (s : S) :
    Dispatch D S :=
  dispatchEvent h EventKind.mousePress w e s

/-- `GLWidget::mouseMoveEvent`. -/
def mouseMoveEvent (h : Handlers D S) (w : GLWidget M) (e : QEvent D) (s : S) :
    Dispatch D S :=
  dispatchEvent h EventKind.mouseMove w e s

/-- `GLWidget::mouseReleaseEvent`. -/
def mouseReleaseEvent (h : Handlers D S) (w : GLWidget M) (e : QEvent D) (s : S) :
    Dispatch D S :=
  dispatchEvent h EventKind.mouseRelease w e s

/-- `GLWidget::wheelEvent`. -/
def wheelEvent (h : Handlers D S) (w : GLWidget M) (e : QEvent D) (s : S) :
    Dispatch D S :=
  dispatchEvent h EventKind.wheel w e s

/-- `GLWidget::keyPressEvent`. -/
def keyPressEvent (h : Handlers D S) (w : GLWidget M) (e : QEvent D) (s : S) :
    Dispatch D S :=
  dispatchEvent h EventKind.keyPress w e s

/-- `GLWidget::keyReleaseEvent`. -/
def keyReleaseEvent (h : Handlers D S) (w : GLWidget M) (e : QEvent D) (s : S) :
    Dispatch D S :=
  dispatchEvent h EventKind.keyRelease w e s

/-- The handler of `GLWidget` for events of kind `k`. -/
def handler (h : Handlers D S) (k : EventKind) (w : GLWidget M) (e : QEvent D) (s : S) :
    Dispatch D S :=
  match k with
  | EventKind.mouseDoubleClick => mouseDoubleClickEvent h w e s
  | EventKind.mousePress => mousePressEvent h w e s
  | EventKind.mouseMove => mouseMoveEvent h w e s
  | EventKind.mouseRelease => mouseReleaseEvent h w e s
  | EventKind.wheel => wheelEvent h w e s
  | EventKind.keyPress => keyPressEvent h w e s
  | EventKind.keyRelease => keyReleaseEvent h w e s

end GLWidget

/-! ## Auxiliary definitions used in the proofs -/

section SelectedLoop

variable {K : Type}

/-- What one pass of a selected-atoms loop does to a single atom, when the
loop sends the position of a selected atom through `f`. -/
def moveAtom (f : Vector3 K → Vector3 K) (a : Atom K) : Atom K :=
  if a.selected then { a with position3d := f a.position3d } else a

/-- Common shape of the loop bodies of `translate`, `rotate` and `tilt`. -/
def selStep [Zero K] (f : Vector3 K → Vector3 K) (m : Molecule K) (i : Nat) : Molecule K :=
  if !m.atomSelected i then m
  else m.setAtomPosition3d i (f (m.atomPosition3d i))

end SelectedLoop

/-- A tool state with two selected atoms at (0,0,0) and (2,0,0), no renderer. -/
def twoAtomTool : Manipulator ℤ :=
  { m_molecule := some ⟨0, [⟨⟨0, 0, 0⟩, true⟩, ⟨⟨2, 0, 0⟩, true⟩], false, 0⟩,
    m_renderer := none,
    m_pressedButtons := Qt.NoButton,
    m_currentAction := ToolAction.Nothing,
    m_object := Identifier.invalid,
    m_lastMousePosition := (0, 0),
    m_lastMouse3D := 0 }

/-- The event and program state once the active tool has had its turn: the
active tool's handler applied to the event marked not accepted, or that event
itself when there is no active tool. -/
def afterActiveTool {M D S : Type} (h : Handlers D S) (k : EventKind) (w : GLWidget M)
    (e : QEvent D) (s : S) : QEvent D × S :=
  match w.m_activeTool with
  | some active => h.tool active k e.ignore s
  | none => (e.ignore, s)

/-- The event and program state once the default tool has had its turn: its
handler runs when a default tool exists and the event is still not accepted. -/
def afterDefaultTool {M D S : Type} (h : Handlers D S) (k : EventKind) (w : GLWidget M)
    (e : QEvent D) (s : S) : QEvent D × S :=
  match w.m_defaultTool with
  | some dflt =>
    if (afterActiveTool h k w e s).1.isAccepted then afterActiveTool h k w e s
    else h.tool dflt k (afterActiveTool h k w e s).1 (afterActiveTool h k w e s).2
  | none => afterActiveTool h k w e s

/-- Handlers for a witness: tool 1 accepts every event, every other tool and
the base widget leave it as it is.  The program state counts handler calls. -/
def acceptingHandlers : Handlers Unit Nat :=
  { tool := fun t _ e n => if t = 1 then (e.accept, n + 1) else (e, n + 1),
    base := fun _ e n => (e, n + 1) }

/-- A widget whose active tool is tool 1 and whose default tool is tool 2. -/
def twoToolWidget : GLWidget Unit :=
  { m_molecule := none, m_tools := [1, 2], m_activeTool := some 1, m_defaultTool := some 2,
    activeScenePlugins := [], drawablesChangedConnections := [1, 2],
    updateRequestedConnections := [1, 2] }

/-- A call of one of the two role setters with a tool pointer (`none` is the
null pointer). -/
inductive RoleCall where
  | setActiveTool (tool : Option ToolId)
  | setDefaultTool (tool : Option ToolId)
deriving DecidableEq, Repr

/-- Make one role-setter call on a widget. -/
def RoleCall.run {M : Type} (c : RoleCall) (w : GLWidget M) : GLWidget M :=
  match c with
  | RoleCall.setActiveTool tool => GLWidget.setActiveTool tool w
  | RoleCall.setDefaultTool tool => GLWidget.setDefaultTool tool w

/-- Make a sequence of role-setter calls, first to last. -/
def runRoleCalls {M : Type} (calls : List RoleCall) (w : GLWidget M) : GLWidget M :=
  calls.foldl (fun w c => c.run w) w

/-- The number of live `drawablesChanged` to `updateScene` subscriptions of a
tool. -/
def GLWidget.subscriptions {M : Type} (w : GLWidget M) (tool : ToolId) : Nat :=
  w.drawablesChangedConnections.count tool

/-- The tool holds the active role, the default role or both. -/
def GLWidget.holdsRole {M : Type} (w : GLWidget M) (tool : ToolId) : Bool :=
  w.m_activeTool == some tool || w.m_defaultTool == some tool

/-- The subscription invariant: one subscription for a tool that holds a role,
none for any other tool. -/
def subscriptionInvariant {M : Type} (w : GLWidget M) : Prop :=
  ∀ t : ToolId, w.subscriptions t = if w.holdsRole t then 1 else 0

/-- A molecule for the dialog examples: atom 0 at (1,0,0), selected; atom 1 at
(5,0,0), not selected. -/
def dialogMolecule : Molecule ℚ :=
  ⟨0, [⟨⟨1, 0, 0⟩, true⟩, ⟨⟨5, 0, 0⟩, false⟩], false, 0⟩

/-- A tool state with a renderer whose camera has the model-view linear part
`modelView` (its unprojections and hit test are irrelevant to `rotate`) and a
molecule made of `atoms`. -/
def cameraTool {K : Type} [Zero K] (modelView : Matrix3 K) (atoms : List (Atom K)) :
    Manipulator K :=
  { m_molecule := some ⟨0, atoms, false, 0⟩,
    m_renderer :=
      some ⟨⟨modelView, fun _ => 0, fun _ p => p⟩, fun _ _ => Identifier.invalid⟩,
    m_pressedButtons := Qt.NoButton,
    m_currentAction := ToolAction.Nothing,
    m_object := Identifier.invalid,
    m_lastMousePosition := (0, 0),
    m_lastMouse3D := 0 }

/-- The positions of the atoms after `rotate delta centroid` followed by
`rotate (-delta) centroid`, or `none` if either call faults. -/
def rotateThereAndBack {K : Type} [LinearOrderedField K] (F : MathFns K)
    (delta centroid : Vector3 K) (s : Manipulator K) : Option (List (Vector3 K)) :=
  match Manipulator.rotate F delta centroid s with
  | .error _ => none
  | .ok s1 =>
    match Manipulator.rotate F (-delta) centroid s1 with
    | .error _ => none
    | .ok s2 => s2.m_molecule.map (fun m => m.atoms.map (fun a => a.position3d))

/-- A widget on which tool 1 is both the active and the default tool, with no
scene plugin active. -/
def sameToolWidget : GLWidget Unit :=
  { m_molecule := none, m_tools := [1], m_activeTool := some 1, m_defaultTool := some 1,
    activeScenePlugins := [], drawablesChangedConnections := [1],
    updateRequestedConnections := [1] }

/-- A tool registry for the lookup examples: tool 1 has the identifier
"Manipulator", the display name "Manipulate tool" and the action label
"Manipulate"; every other tool has empty strings and no action. -/
def lookupTools : ToolId → ToolPlugin :=
  fun t => if t = 1 then ⟨"Manipulator", "Manipulate tool", some "Manipulate"⟩ else ⟨"", "", none⟩

/-- A widget with tool 1 registered and no tool in either role. -/
def lookupWidget : GLWidget Unit :=
  { m_molecule := none, m_tools := [1], m_activeTool := none, m_defaultTool := none,
    activeScenePlugins := [], drawablesChangedConnections := [],
    updateRequestedConnections := [1] }

/-- A mouse event with the given held buttons, causing button and modifiers,
at pixel (0,0), not accepted. -/
def mouseEvent {K : Type} [Zero K] (buttons button modifiers : Nat) : QMouseEvent K :=
  ⟨⟨buttons, button, modifiers, (0, 0), ⟨0, 0⟩⟩, false⟩

/-- A tool state for the pointer examples: a one-atom molecule with identity 0
that is not interactive, and a renderer whose hit test returns `hit` at every
pixel; no button pressed, nothing recorded. -/
def pointerTool (hit : Identifier) : Manipulator ℤ :=
  { m_molecule := some ⟨0, [⟨⟨0, 0, 0⟩, false⟩], false, 0⟩,
    m_renderer := some ⟨⟨Matrix3.identity, fun _ => 0, fun _ p => p⟩, fun _ _ => hit⟩,
    m_pressedButtons := Qt.NoButton,
    m_currentAction := ToolAction.Nothing,
    m_object := Identifier.invalid,
    m_lastMousePosition := (0, 0),
    m_lastMouse3D := 0 }

/-- The hit-test result "atom 0 of molecule 0". -/
def atomZero : Identifier := ⟨PrimitiveType.AtomType, some 0, 0⟩

/-- What a handler call leaves behind that the pointer claims talk about: the
event's accepted flag, the molecule's interactive hint and the recorded hit;
`none` when the call faulted. -/
def outcome {K : Type} (r : Except Fault (QMouseEvent K × Manipulator K)) :
    Option (Bool × Option Bool × Identifier) :=
  match r with
  | .ok (e, s) => some (e.accepted, s.m_molecule.map (fun m => m.interactive), s.m_object)
  | .error _ => none

/-- A press event handled by the tool, followed by a release event handled by
the tool. -/
def pressThenRelease {K : Type} (press release : QMouseEvent K) (s : Manipulator K) :
    Except Fault (QMouseEvent K × Manipulator K) :=
  match Manipulator.mousePressEvent press s with
  | .ok (_, s1) => Manipulator.mouseReleaseEvent release s1
  | .error f => .error f

/-- The positions of the selected atoms of a molecule, in index order. -/
def selectedPositions {K : Type} (m : Molecule K) : List (Vector3 K) :=
  (m.atoms.filter (fun a => a.selected)).map (fun a => a.position3d)

/-- The arithmetic mean of a list of positions, coordinate by coordinate: the
sum of the coordinates divided by the number of positions. -/
def arithmeticMean {K : Type} [Field K] (ps : List (Vector3 K)) : Vector3 K :=
  ⟨(ps.map (fun p => p.x)).sum / (ps.length : K),
   (ps.map (fun p => p.y)).sum / (ps.length : K),
   (ps.map (fun p => p.z)).sum / (ps.length : K)⟩

/-- A molecule with two selected atoms, at (1,0,0) and (-1,0,0). -/
def oppositeAtoms : Molecule ℚ :=
  ⟨0, [⟨⟨1, 0, 0⟩, true⟩, ⟨⟨-1, 0, 0⟩, true⟩], false, 0⟩

/-- What the tool plugin interface hands back to the dispatch for a handler
result: the event and new tool state of a completed call, or the fault, the
event being left as it was. `rest` is the state of the rest of the program. -/
def liftHandlerResult {K T : Type} (e : QMouseEvent K) (rest : T)
    (r : Except Fault (QMouseEvent K × Manipulator K)) :
    QMouseEvent K × Except Fault (Manipulator K × T) :=
  match r with
  | .ok (e', m') => (e', .ok (m', rest))
  | .error f => (e, .error f)

/-- The handlers a `GLWidget` dispatch calls when tool `manip` is the
Manipulator.  The program state is the Manipulator's state paired with the
state `T` of everything else, or the fault once a handler has faulted (after
which nothing runs any more).  The press, release and move handlers of tool
`manip` are the Manipulator's; every other handler is taken from `others`. -/
def manipulatorHandlers {K T : Type} [LinearOrderedField K] (F : MathFns K) (manip : ToolId)
    (others : Handlers (MouseData K) (Manipulator K × T)) :
    Handlers (MouseData K) (Except Fault (Manipulator K × T)) :=
  { tool := fun t k e s =>
      match s with
      | .error f => (e, .error f)
      | .ok (m, rest) =>
        if t = manip then
          match k with
          | EventKind.mousePress => liftHandlerResult e rest (Manipulator.mousePressEvent e m)
          | EventKind.mouseRelease =>
            liftHandlerResult e rest (Manipulator.mouseReleaseEvent e m)
          | EventKind.mouseMove => liftHandlerResult e rest (Manipulator.mouseMoveEvent F e m)
          | _ => ((others.tool t k e (m, rest)).1, .ok (others.tool t k e (m, rest)).2)
        else ((others.tool t k e (m, rest)).1, .ok (others.tool t k e (m, rest)).2),
    base := fun k e s =>
      match s with
      | .error f => (e, .error f)
      | .ok world => ((others.base k e world).1, .ok (others.base k e world).2) }

/-- Handlers that leave the event and the program state as they are. -/
def idleHandlers {D S : Type} : Handlers D S :=
  { tool := fun _ _ e s => (e, s), base := fun _ e s => (e, s) }

/-- A tool state for the move examples: a renderer whose camera unprojects
every window position to (1,0,0), a molecule with identity 0 made of `atoms`,
the recorded hit `object`, the last unprojected pointer position at the
origin, no button pressed. -/
def moveTool {K : Type} [Zero K] [One K] (atoms : List (Atom K)) (object : Identifier) :
    Manipulator K :=
  { m_molecule := some ⟨0, atoms, false, 0⟩,
    m_renderer :=
      some ⟨⟨Matrix3.identity, fun _ => ⟨1, 0, 0⟩, fun _ p => p⟩, fun _ _ => object⟩,
    m_pressedButtons := Qt.NoButton,
    m_currentAction := ToolAction.Nothing,
    m_object := object,
    m_lastMousePosition := (0, 0),
    m_lastMouse3D := 0 }

/-- The atom positions a handler call leaves behind; `none` when the call
faulted or there is no molecule. -/
def positionsAfter {K : Type} (r : Except Fault (QMouseEvent K × Manipulator K)) :
    Option (List (Vector3 K)) :=
  match r with
  | .ok (_, s) => s.m_molecule.map (fun m => m.atoms.map (fun a => a.position3d))
  | .error _ => none

/-! # Theorems -/

/-! ## Vector arithmetic, unfolded -/

section VectorLemmas

variable {K : Type}

theorem Vector3.zero_def [Zero K] : (0 : Vector3 K) = ⟨0, 0, 0⟩ := rfl

theorem Vector3.add_def [Add K] (a b : Vector3 K) :
    a + b = ⟨a.x + b.x, a.y + b.y, a.z + b.z⟩ := rfl

theorem Vector3.sub_def [Sub K] (a b : Vector3 K) :
    a - b = ⟨a.x - b.x, a.y - b.y, a.z - b.z⟩ := rfl

theorem Vector3.neg_def [Neg K] (a : Vector3 K) : -a = ⟨-a.x, -a.y, -a.z⟩ := rfl

end VectorLemmas

/-! ## Loops over the selected atoms -/

section SelectedLoop

variable {K : Type}

theorem selStep_getElem? [Zero K] (f : Vector3 K → Vector3 K) (m : Molecule K) (i j : Nat) :
    (selStep f m i).atoms[j]? =
      if j = i then (m.atoms[j]?).map (moveAtom f) else m.atoms[j]? := by
  unfold selStep Molecule.atomSelected Molecule.setAtomPosition3d Molecule.atomPosition3d
  by_cases hji : j = i
  · subst hji
    cases h : m.atoms[j]? with
    | none => simpa using h
    | some a =>
      have hlt : j < m.atoms.length := by
        rcases List.getElem?_eq_some.mp h with ⟨hl, _⟩; exact hl
      cases hs : a.selected <;> simp [hs, moveAtom, h, hlt, List.getElem?_set]
  · cases h : m.atoms[i]? with
    | none => simp [hji]
    | some a =>
      have hij : ¬ i = j := fun e => hji e.symm
      cases hs : a.selected <;> simp [hs, hji, hij, List.getElem?_set]

theorem selStep_fields [Zero K] (f : Vector3 K → Vector3 K) (m : Molecule K) (i : Nat) :
    (selStep f m i).ident = m.ident ∧ (selStep f m i).interactive = m.interactive ∧
      (selStep f m i).changed = m.changed := by
  unfold selStep Molecule.setAtomPosition3d
  cases m.atoms[i]? <;> cases m.atomSelected i <;> simp

theorem foldl_selStep_getElem? [Zero K] (f : Vector3 K → Vector3 K) (m : Molecule K)
    (n j : Nat) :
    ((List.range n).foldl (selStep f) m).atoms[j]? =
      if j < n then (m.atoms[j]?).map (moveAtom f) else m.atoms[j]? := by
  induction n with
  | zero => simp
  | succ n ih =>
    rw [List.range_succ, List.foldl_append]
    simp only [List.foldl_cons, List.foldl_nil]
    rw [selStep_getElem?, ih]
    by_cases hjn : j = n
    · subst hjn; simp
    · by_cases hlt : j < n
      · have : j < n + 1 := by omega
        simp [hjn, hlt, this]
      · have : ¬ j < n + 1 := by omega
        simp [hjn, hlt, this]

theorem foldl_selStep_fields [Zero K] (f : Vector3 K → Vector3 K) (m : Molecule K) (n : Nat) :
    ((List.range n).foldl (selStep f) m).ident = m.ident ∧
      ((List.range n).foldl (selStep f) m).interactive = m.interactive ∧
      ((List.range n).foldl (selStep f) m).changed = m.changed := by
  induction n with
  | zero => simp
  | succ n ih =>
    rw [List.range_succ, List.foldl_append]
    simp only [List.foldl_cons, List.foldl_nil]
    obtain ⟨h1, h2, h3⟩ := selStep_fields f ((List.range n).foldl (selStep f) m) n
    exact ⟨h1.trans ih.1, h2.trans ih.2.1, h3.trans ih.2.2⟩

/-- A whole selected-atoms loop maps `moveAtom f` over the atom list and
touches nothing else. -/
theorem foldl_selStep_eq [Zero K] (f : Vector3 K → Vector3 K) (m : Molecule K) :
    (List.range m.atomCount).foldl (selStep f) m =
      { m with atoms := m.atoms.map (moveAtom f) } := by
  have hat : ((List.range m.atomCount).foldl (selStep f) m).atoms = m.atoms.map (moveAtom f) := by
    apply List.ext_getElem?
    intro j
    rw [foldl_selStep_getElem?]
    unfold Molecule.atomCount
    by_cases hlt : j < m.atoms.length
    · simp [hlt]
    · have : m.atoms.length ≤ j := by omega
      simp [hlt, List.getElem?_eq_none this]
  obtain ⟨h1, h2, h3⟩ := foldl_selStep_fields f m m.atomCount
  generalize (List.range m.atomCount).foldl (selStep f) m = r at *
  cases r; cases m; simp_all

theorem translateStep_eq_selStep [Zero K] [Add K] (delta : Vector3 K) :
    Manipulator.translateStep delta = selStep (fun p => p + delta) := by
  funext m i; rfl

theorem rotateStep_eq_selStep [Zero K] [Add K] [Mul K] (t : Transform K) :
    Manipulator.rotateStep t = selStep t.apply := by
  funext m i; rfl

/-- The selection flag of an atom after a pass that maps `moveAtom f`. -/
theorem atomSelected_map_moveAtom (f : Vector3 K → Vector3 K) (m : Molecule K) (i : Nat) :
    Molecule.atomSelected { m with atoms := m.atoms.map (moveAtom f) } i =
      m.atomSelected i := by
  unfold Molecule.atomSelected
  simp only [List.getElem?_map]
  cases m.atoms[i]? with
  | none => rfl
  | some a => simp only [Option.map_some', moveAtom]; split <;> rfl

/-- The position of an atom after a pass that maps `moveAtom f`. -/
theorem atomPosition3d_map_moveAtom [Zero K] (f : Vector3 K → Vector3 K) (m : Molecule K)
    (i : Nat) :
    Molecule.atomPosition3d { m with atoms := m.atoms.map (moveAtom f) } i =
      if m.atomSelected i then f (m.atomPosition3d i) else m.atomPosition3d i := by
  unfold Molecule.atomPosition3d Molecule.atomSelected
  simp only [List.getElem?_map]
  cases m.atoms[i]? with
  | none => simp
  | some a =>
    simp only [Option.map_some', moveAtom]
    cases a.selected <;> simp

end SelectedLoop

/-! ## Translation -/

/-- C1. `Manipulator::translate`: with a molecule present, `translate delta`
succeeds and changes only the molecule; the atom count and every selection
flag are unchanged, every selected atom's position is its old position plus
`delta`, and every non-selected atom's position is unchanged. -/
theorem translate_shifts_exactly_the_selected_atoms {K : Type} [Zero K] [Add K]
    (delta : Vector3 K) (s : Manipulator K) (mol : Molecule K)
    (hmol : s.m_molecule = some mol) :
    ∃ mol' : Molecule K,
      Manipulator.translate delta s = .ok { s with m_molecule := some mol' } ∧
      mol'.atomCount = mol.atomCount ∧
      ∀ i : Nat,
        mol'.atomSelected i = mol.atomSelected i ∧
        (mol.atomSelected i = true →
          mol'.atomPosition3d i = mol.atomPosition3d i + delta) ∧
        (mol.atomSelected i = false → mol'.atomPosition3d i = mol.atomPosition3d i) := by
  refine ⟨{ mol with atoms := mol.atoms.map (moveAtom (fun p => p + delta)) }, ?_, ?_, ?_⟩
  · unfold Manipulator.translate
    rw [hmol]
    simp only [translateStep_eq_selStep, foldl_selStep_eq]
  · simp [Molecule.atomCount]
  · intro i
    refine ⟨atomSelected_map_moveAtom _ mol i, ?_, ?_⟩
    · intro hsel
      rw [atomPosition3d_map_moveAtom, hsel]; rfl
    · intro hsel
      rw [atomPosition3d_map_moveAtom, hsel]; rfl

/-- Witness for C1: two selected atoms at (0,0,0) and (2,0,0), translated by
(1,0,0), end at (1,0,0) and (3,0,0). -/
theorem translate_two_selected_atoms_witness :
    (match Manipulator.translate (⟨1, 0, 0⟩ : Vector3 ℤ) twoAtomTool with
      | .ok s => s.m_molecule.map (fun m => m.atoms.map (fun a => a.position3d))
      | .error _ => none) = some [⟨1, 0, 0⟩, ⟨3, 0, 0⟩] ∧
    ∃ mol' : Molecule ℤ,
      Manipulator.translate (⟨1, 0, 0⟩ : Vector3 ℤ) twoAtomTool =
        .ok { twoAtomTool with m_molecule := some mol' } ∧
      mol'.atomCount = 2 ∧
      ∀ i : Nat,
        mol'.atomSelected i =
          Molecule.atomSelected
            (⟨0, [⟨⟨0, 0, 0⟩, true⟩, ⟨⟨2, 0, 0⟩, true⟩], false, 0⟩ : Molecule ℤ) i ∧
        (Molecule.atomSelected
            (⟨0, [⟨⟨0, 0, 0⟩, true⟩, ⟨⟨2, 0, 0⟩, true⟩], false, 0⟩ : Molecule ℤ) i = true →
          mol'.atomPosition3d i =
            Molecule.atomPosition3d
              (⟨0, [⟨⟨0, 0, 0⟩, true⟩, ⟨⟨2, 0, 0⟩, true⟩], false, 0⟩ : Molecule ℤ) i +
              ⟨1, 0, 0⟩) ∧
        (Molecule.atomSelected
            (⟨0, [⟨⟨0, 0, 0⟩, true⟩, ⟨⟨2, 0, 0⟩, true⟩], false, 0⟩ : Molecule ℤ) i = false →
          mol'.atomPosition3d i =
            Molecule.atomPosition3d
              (⟨0, [⟨⟨0, 0, 0⟩, true⟩, ⟨⟨2, 0, 0⟩, true⟩], false, 0⟩ : Molecule ℤ) i) :=
  ⟨by decide,
   translate_shifts_exactly_the_selected_atoms (⟨1, 0, 0⟩ : Vector3 ℤ) twoAtomTool
     ⟨0, [⟨⟨0, 0, 0⟩, true⟩, ⟨⟨2, 0, 0⟩, true⟩], false, 0⟩ rfl⟩

/-! ## Event dispatch -/

theorem dispatchEvent_invoked {M D S : Type} (h : Handlers D S) (k : EventKind)
    (w : GLWidget M) (e : QEvent D) (s : S) :
    (GLWidget.dispatchEvent h k w e s).invoked =
      (if w.m_activeTool.isSome then [Callee.activeTool] else []) ++
      (if w.m_defaultTool.isSome ∧ (afterActiveTool h k w e s).1.isAccepted = false then
        [Callee.defaultTool] else []) ++
      (if (afterDefaultTool h k w e s).1.isAccepted = false then [Callee.baseWidget]
        else []) ∧
    (GLWidget.dispatchEvent h k w e s).event =
      (if (afterDefaultTool h k w e s).1.isAccepted = false then
        (h.base k (afterDefaultTool h k w e s).1 (afterDefaultTool h k w e s).2).1
       else (afterDefaultTool h k w e s).1) ∧
    (GLWidget.dispatchEvent h k w e s).state =
      (if (afterDefaultTool h k w e s).1.isAccepted = false then
        (h.base k (afterDefaultTool h k w e s).1 (afterDefaultTool h k w e s).2).2
       else (afterDefaultTool h k w e s).2) := by
  unfold GLWidget.dispatchEvent afterDefaultTool afterActiveTool
  cases hA : w.m_activeTool <;> cases hD : w.m_defaultTool <;> simp only [] <;>
    (repeat' split) <;> simp_all [QEvent.isAccepted, QEvent.ignore]

theorem handler_eq_dispatchEvent {M D S : Type} (h : Handlers D S) (k : EventKind)
    (w : GLWidget M) (e : QEvent D) (s : S) :
    GLWidget.handler h k w e s = GLWidget.dispatchEvent h k w e s := by
  cases k <;> rfl

/-- C2. Each of the seven `GLWidget` event handlers is a strict priority
chain with early termination: the event starts as not accepted; the handlers
invoked are, in this order, the active tool's (exactly when an active tool
exists), the default tool's (exactly when a default tool exists and the event
is still not accepted after the active tool's turn) and the base widget's
(exactly when the event is still not accepted after both); so when the active
tool accepts the event the default tool's handler is invoked zero times. -/
theorem dispatch_is_a_strict_priority_chain {M D S : Type} (h : Handlers D S)
    (k : EventKind) (w : GLWidget M) (e : QEvent D) (s : S) :
    e.ignore.isAccepted = false ∧
    (GLWidget.handler h k w e s).invoked =
      (if w.m_activeTool.isSome then [Callee.activeTool] else []) ++
      (if w.m_defaultTool.isSome ∧ (afterActiveTool h k w e s).1.isAccepted = false then
        [Callee.defaultTool] else []) ++
      (if (afterDefaultTool h k w e s).1.isAccepted = false then [Callee.baseWidget]
        else []) ∧
    ((afterActiveTool h k w e s).1.isAccepted = true →
      (GLWidget.handler h k w e s).invoked.count Callee.defaultTool = 0 ∧
      (GLWidget.handler h k w e s).invoked.count Callee.baseWidget = 0 ∧
      (GLWidget.handler h k w e s).invoked = [Callee.activeTool]) := by
  rw [handler_eq_dispatchEvent]
  obtain ⟨hinv, -, -⟩ := dispatchEvent_invoked h k w e s
  refine ⟨rfl, hinv, ?_⟩
  intro hacc
  have hsome : w.m_activeTool.isSome = true := by
    cases hA : w.m_activeTool with
    | none => simp [afterActiveTool, hA, QEvent.isAccepted, QEvent.ignore] at hacc
    | some t => rfl
  have hD : (afterDefaultTool h k w e s).1.isAccepted = true := by
    unfold afterDefaultTool
    cases w.m_defaultTool with
    | none => exact hacc
    | some t => simp [hacc]
  rw [hinv]
  simp [hsome, hacc, hD]

/-- Witness for C2: with an active tool that accepts the event and a default
tool present, a press event reaches the active tool only. -/
theorem dispatch_accepting_active_tool_witness :
    (GLWidget.mousePressEvent acceptingHandlers twoToolWidget ⟨(), true⟩ 0).invoked =
      [Callee.activeTool] ∧
    (GLWidget.mousePressEvent acceptingHandlers twoToolWidget ⟨(), true⟩ 0).state = 1 ∧
    (GLWidget.handler acceptingHandlers EventKind.mousePress twoToolWidget
      ⟨(), true⟩ 0).invoked.count Callee.defaultTool = 0 :=
  ⟨by decide, by decide,
   ((dispatch_is_a_strict_priority_chain acceptingHandlers EventKind.mousePress
      twoToolWidget ⟨(), true⟩ 0).2.2 (by decide)).1⟩

/-! ## Tool roles and subscriptions -/

theorem count_filter_bne (l : List ToolId) (x t : ToolId) :
    (l.filter (fun y => y != x)).count t = if t = x then 0 else l.count t := by
  induction l with
  | nil => simp
  | cons a l ih =>
    by_cases hax : a = x
    · subst hax
      by_cases hta : t = a
      · subst hta; simpa using ih
      · have : ¬ a = t := fun e => hta e.symm
        simp [List.filter_cons, List.count_cons, ih, hta, this]
    · by_cases hta : t = a
      · subst hta; simp [List.filter_cons, List.count_cons, ih, hax]
      · have : ¬ a = t := fun e => hta e.symm
        simp [List.filter_cons, List.count_cons, ih, hax, this]

theorem count_append_singleton (l : List ToolId) (x t : ToolId) :
    (l ++ [x]).count t = l.count t + if t = x then 1 else 0 := by
  by_cases h : t = x
  · subst h; simp
  · have : ¬ x = t := fun e => h e.symm
    simp [List.count_cons, h, this]

theorem addTool_roles {M : Type} (t : ToolId) (w : GLWidget M) :
    (GLWidget.addTool t w).m_activeTool = w.m_activeTool ∧
    (GLWidget.addTool t w).m_defaultTool = w.m_defaultTool ∧
    (GLWidget.addTool t w).drawablesChangedConnections = w.drawablesChangedConnections := by
  unfold GLWidget.addTool; split <;> simp

theorem setActiveTool_roles {M : Type} (tool : Option ToolId) (w : GLWidget M) :
    (GLWidget.setActiveTool tool w).m_activeTool = tool ∧
    (GLWidget.setActiveTool tool w).m_defaultTool = w.m_defaultTool := by
  unfold GLWidget.setActiveTool
  by_cases h0 : tool = w.m_activeTool
  · simp [h0]
  · simp only [h0, if_false]
    cases tool <;> cases hA : w.m_activeTool <;>
      simp only [GLWidget.connectDrawablesChanged, GLWidget.disconnectDrawablesChanged] <;>
      (repeat' split) <;> simp [addTool_roles]

theorem setActiveTool_count {M : Type} (tool : Option ToolId) (w : GLWidget M) (t : ToolId) :
    (GLWidget.setActiveTool tool w).subscriptions t =
      if tool = w.m_activeTool then w.subscriptions t
      else
        (if w.m_activeTool = some t ∧ w.m_activeTool ≠ w.m_defaultTool then 0
         else w.subscriptions t) +
        (if tool = some t ∧ tool ≠ w.m_defaultTool then 1 else 0) := by
  unfold GLWidget.setActiveTool GLWidget.subscriptions
  by_cases h0 : tool = w.m_activeTool
  · simp [h0]
  · simp only [h0, if_false]
    cases tool <;> cases hA : w.m_activeTool <;>
      simp only [GLWidget.connectDrawablesChanged, GLWidget.disconnectDrawablesChanged] <;>
      (repeat' split) <;>
      simp_all [addTool_roles, count_filter_bne, count_append_singleton]
    all_goals
      (try simp only [List.count_singleton, beq_iff_eq])
      (try intro _)
      (try split_ifs) <;>
        first
        | omega
        | (subst_vars; contradiction)

theorem setDefaultTool_roles {M : Type} (tool : Option ToolId) (w : GLWidget M) :
    (GLWidget.setDefaultTool tool w).m_activeTool = w.m_activeTool ∧
    (GLWidget.setDefaultTool tool w).m_defaultTool = tool := by
  unfold GLWidget.setDefaultTool
  by_cases h0 : tool = w.m_defaultTool
  · simp [h0]
  · simp only [h0, if_false]
    cases tool <;> cases hD : w.m_defaultTool <;>
      simp only [GLWidget.connectDrawablesChanged, GLWidget.disconnectDrawablesChanged] <;>
      (repeat' split) <;> simp [addTool_roles]

theorem setDefaultTool_count {M : Type} (tool : Option ToolId) (w : GLWidget M) (t : ToolId) :
    (GLWidget.setDefaultTool tool w).subscriptions t =
      if tool = w.m_defaultTool then w.subscriptions t
      else
        (if w.m_defaultTool = some t ∧ w.m_activeTool ≠ w.m_defaultTool then 0
         else w.subscriptions t) +
        (if tool = some t ∧ w.m_activeTool ≠ tool then 1 else 0) := by
  unfold GLWidget.setDefaultTool GLWidget.subscriptions
  by_cases h0 : tool = w.m_defaultTool
  · simp [h0]
  · simp only [h0, if_false]
    cases tool <;> cases hD : w.m_defaultTool <;>
      simp only [GLWidget.connectDrawablesChanged, GLWidget.disconnectDrawablesChanged] <;>
      (repeat' split) <;>
      simp_all [addTool_roles, count_filter_bne, count_append_singleton]
    all_goals
      (try simp only [List.count_singleton, beq_iff_eq])
      (try intro _)
      (try split_ifs) <;>
        first
        | omega
        | (subst_vars; contradiction)
        | (rcases (by assumption : _ ∧ _) with ⟨ha, hb⟩; exact absurd ha.symm hb)

theorem setActiveTool_invariant {M : Type} (tool : Option ToolId) (w : GLWidget M)
    (hw : subscriptionInvariant w) : subscriptionInvariant (GLWidget.setActiveTool tool w) := by
  intro t
  have ht := hw t
  rw [setActiveTool_count]
  unfold GLWidget.holdsRole at *
  rw [(setActiveTool_roles tool w).1, (setActiveTool_roles tool w).2, ht]
  by_cases h0 : tool = w.m_activeTool
  · simp [h0]
  · rw [if_neg h0]
    by_cases h1 : w.m_activeTool = some t <;> by_cases h2 : w.m_defaultTool = some t <;>
      by_cases h3 : tool = some t <;> simp_all
    all_goals (intro h; exact h2 h.symm)

theorem setDefaultTool_invariant {M : Type} (tool : Option ToolId) (w : GLWidget M)
    (hw : subscriptionInvariant w) :
    subscriptionInvariant (GLWidget.setDefaultTool tool w) := by
  intro t
  have ht := hw t
  rw [setDefaultTool_count]
  unfold GLWidget.holdsRole at *
  rw [(setDefaultTool_roles tool w).1, (setDefaultTool_roles tool w).2, ht]
  by_cases h0 : tool = w.m_defaultTool
  · simp [h0]
  · rw [if_neg h0]
    by_cases h1 : w.m_activeTool = some t <;> by_cases h2 : w.m_defaultTool = some t <;>
      by_cases h3 : tool = some t <;> simp_all

theorem runRoleCalls_invariant {M : Type} (calls : List RoleCall) (w : GLWidget M)
    (hw : subscriptionInvariant w) : subscriptionInvariant (runRoleCalls calls w) := by
  induction calls generalizing w with
  | nil => exact hw
  | cons c cs ih =>
    apply ih
    cases c with
    | setActiveTool tool => exact setActiveTool_invariant tool w hw
    | setDefaultTool tool => exact setDefaultTool_invariant tool w hw

/-- C3. Starting from the widget as constructed, after every finite sequence
of `setActiveTool` / `setDefaultTool` calls (null tools included) each tool
has exactly one live `drawablesChanged` subscription if it holds the active
role, the default role or both, and none if it holds neither. -/
theorem role_holders_have_exactly_one_subscription {M : Type} (calls : List RoleCall)
    (t : ToolId) :
    (runRoleCalls calls (GLWidget.init : GLWidget M)).subscriptions t =
      if (runRoleCalls calls (GLWidget.init : GLWidget M)).m_activeTool = some t ∨
          (runRoleCalls calls (GLWidget.init : GLWidget M)).m_defaultTool = some t
      then 1 else 0 := by
  have h := runRoleCalls_invariant calls (GLWidget.init : GLWidget M)
    (by intro t; simp [GLWidget.subscriptions, GLWidget.holdsRole, GLWidget.init]) t
  rw [h]
  unfold GLWidget.holdsRole
  simp

/-- Witness for C3: tool 7 is made active, then default, then the active
tool is set to null (or to tool 8): tool 7 still has exactly one subscription. -/
theorem one_subscription_after_leaving_one_role_witness :
    (runRoleCalls
      [RoleCall.setActiveTool (some 7), RoleCall.setDefaultTool (some 7),
        RoleCall.setActiveTool none] (GLWidget.init : GLWidget Unit)).subscriptions 7 = 1 ∧
    (runRoleCalls
      [RoleCall.setActiveTool (some 7), RoleCall.setDefaultTool (some 7),
        RoleCall.setActiveTool (some 8)] (GLWidget.init : GLWidget Unit)).subscriptions 7 = 1 ∧
    (runRoleCalls
      [RoleCall.setActiveTool (some 7), RoleCall.setDefaultTool (some 7),
        RoleCall.setActiveTool (some 8)]
      (GLWidget.init : GLWidget Unit)).drawablesChangedConnections = [7, 8] :=
  ⟨(role_holders_have_exactly_one_subscription
      [RoleCall.setActiveTool (some 7), RoleCall.setDefaultTool (some 7),
        RoleCall.setActiveTool none] 7).trans (by decide),
   (role_holders_have_exactly_one_subscription
      [RoleCall.setActiveTool (some 7), RoleCall.setDefaultTool (some 7),
        RoleCall.setActiveTool (some 8)] 7).trans (by decide),
   by decide⟩

/-! ## The rotation centre of the dialog -/

/-- C4 (the code at the failing input). The `switch` of `buttonClicked` falls
through: for each of the indices 0, 1 and 2 the centre handed to `rotate` is
the position of the atom chosen in the atom-selection box, whatever the centre
of geometry and the selection are.  With atom 0 at (1,0,0) selected, atom 1 at
(5,0,0) not selected and atom 1 chosen in the box, index 0 and index 1 both
give (5,0,0), neither the origin nor the centroid (1,0,0) of the selection. -/
theorem rotationCenter_falls_through_to_the_chosen_atom :
    (∀ (cog : Vector3 ℚ) (mol : Molecule ℚ) (atomIndex : Nat) (index : Int),
      index = 0 ∨ index = 1 ∨ index = 2 →
        Manipulator.rotationCenter cog mol index atomIndex = mol.atomPosition3d atomIndex) ∧
    Manipulator.rotationCenter (⟨3, 0, 0⟩ : Vector3 ℚ) dialogMolecule 0 1 = ⟨5, 0, 0⟩ ∧
    Manipulator.rotationCenter (⟨3, 0, 0⟩ : Vector3 ℚ) dialogMolecule 1 1 = ⟨5, 0, 0⟩ ∧
    Manipulator.selectionCentroid dialogMolecule (0 : Vector3 ℚ) = ⟨1, 0, 0⟩ ∧
    Manipulator.rotationCenter (⟨3, 0, 0⟩ : Vector3 ℚ) dialogMolecule 2 1 = ⟨5, 0, 0⟩ := by
  refine ⟨?_, ?_, ?_, ?_, ?_⟩
  · intro cog mol atomIndex index h
    unfold Manipulator.rotationCenter
    simp only [h, if_true]
  · decide
  · decide
  · norm_num [Manipulator.selectionCentroid, Manipulator.centroidStep, dialogMolecule,
      Molecule.atomCount, Molecule.atomSelected, Molecule.atomPosition3d, List.range_succ,
      Vector3.divScalar, Vector3.add_def, Vector3.zero_def]
    exact ⟨rfl, rfl, rfl⟩
  · decide

/-! ## Rotation -/

section Rotation

theorem Matrix3.identity_mul {K : Type} [Field K] (m : Matrix3 K) :
    Matrix3.identity.mul m = m := by
  rcases m with ⟨⟨a, b, c⟩, ⟨d, e, f⟩, ⟨g, h, i⟩⟩
  simp [Matrix3.identity, Matrix3.mul, Matrix3.col0, Matrix3.col1, Matrix3.col2, Vector3.dot]

theorem Matrix3.mul_identity {K : Type} [Field K] (m : Matrix3 K) :
    m.mul Matrix3.identity = m := by
  rcases m with ⟨⟨a, b, c⟩, ⟨d, e, f⟩, ⟨g, h, i⟩⟩
  simp [Matrix3.identity, Matrix3.mul, Matrix3.col0, Matrix3.col1, Matrix3.col2, Vector3.dot]

/-- A rotation by the angle zero is the identity matrix, whatever the axis. -/
theorem angleAxis_zero {K : Type} [Field K] (F : MathFns K) (hcos : F.cos 0 = 1)
    (hsin : F.sin 0 = 0) (k : Vector3 K) : angleAxis F 0 k = Matrix3.identity := by
  simp [angleAxis, Matrix3.identity, hcos, hsin]

/-- About a unit axis, the rotation by `-θ` undoes the rotation by `θ`. -/
theorem angleAxis_neg_mulVec {K : Type} [Field K] (F : MathFns K) (θ : K) (k q : Vector3 K)
    (hc : F.cos (-θ) = F.cos θ) (hs : F.sin (-θ) = -F.sin θ)
    (hcs : F.cos θ ^ 2 + F.sin θ ^ 2 = 1) (hk : k.squaredNorm = 1) :
    (angleAxis F (-θ) k).mulVec ((angleAxis F θ k).mulVec q) = q := by
  rcases k with ⟨kx, ky, kz⟩
  rcases q with ⟨qx, qy, qz⟩
  simp only [Vector3.squaredNorm] at hk
  simp only [angleAxis, Matrix3.mulVec, Vector3.dot, hc, hs]
  generalize F.cos θ = c at *
  generalize F.sin θ = s at *
  congr 1
  · linear_combination
      (qx - (kx * qx + ky * qy + kz * qz) * kx) * hcs +
        (s ^ 2 * qx + (1 - c) ^ 2 * (kx * qx + ky * qy + kz * qz) * kx) * hk
  · linear_combination
      (qy - (kx * qx + ky * qy + kz * qz) * ky) * hcs +
        (s ^ 2 * qy + (1 - c) ^ 2 * (kx * qx + ky * qy + kz * qz) * ky) * hk
  · linear_combination
      (qz - (kx * qx + ky * qy + kz * qz) * kz) * hcs +
        (s ^ 2 * qz + (1 - c) ^ 2 * (kx * qx + ky * qy + kz * qz) * kz) * hk

/-- Over the reals a non-zero vector is normalized to a unit vector. -/
theorem normalized_squaredNorm (v : Vector3 ℝ) (hv : v ≠ 0) :
    (normalized ⟨Real.cos, Real.sin, Real.sqrt⟩ v).squaredNorm = 1 := by
  rcases v with ⟨a, b, c⟩
  have hpos : 0 < a * a + b * b + c * c := by
    have h0 : 0 ≤ a * a + b * b + c * c :=
      add_nonneg (add_nonneg (mul_self_nonneg a) (mul_self_nonneg b)) (mul_self_nonneg c)
    rcases h0.lt_or_eq with h | h
    · exact h
    · exfalso
      apply hv
      have ha : a = 0 := by nlinarith [mul_self_nonneg a, mul_self_nonneg b, mul_self_nonneg c]
      have hb : b = 0 := by nlinarith [mul_self_nonneg a, mul_self_nonneg b, mul_self_nonneg c]
      have hc : c = 0 := by nlinarith [mul_self_nonneg a, mul_self_nonneg b, mul_self_nonneg c]
      rw [ha, hb, hc]; rfl
  have hs : Real.sqrt (a * a + b * b + c * c) * Real.sqrt (a * a + b * b + c * c) =
      a * a + b * b + c * c := Real.mul_self_sqrt hpos.le
  have hne : Real.sqrt (a * a + b * b + c * c) ≠ 0 := by
    intro h; rw [h] at hs; linarith
  simp only [normalized, Vector3.squaredNorm, hpos, if_true, Vector3.divScalar]
  field_simp

end Rotation

section RotateRoundTrip

theorem Matrix3.mulVec_add {K : Type} [Field K] (m : Matrix3 K) (a b : Vector3 K) :
    m.mulVec (a + b) = m.mulVec a + m.mulVec b := by
  ext <;> simp only [Matrix3.mulVec, Vector3.dot, Vector3.add_def] <;> ring

theorem Matrix3.mulVec_neg {K : Type} [Field K] (m : Matrix3 K) (a : Vector3 K) :
    m.mulVec (-a) = -m.mulVec a := by
  ext <;> simp only [Matrix3.mulVec, Vector3.dot, Vector3.neg_def] <;> ring

/-- A transform whose linear part is undone by `r` is undone by the transform
built the same way from `r`. -/
theorem apply_undo {K : Type} [Field K] (r1 r2 : Matrix3 K) (c p : Vector3 K)
    (h : ∀ q, r2.mulVec (r1.mulVec q) = q) :
    Transform.apply ⟨r2, c + r2.mulVec (-c)⟩ (Transform.apply ⟨r1, c + r1.mulVec (-c)⟩ p) =
      p := by
  simp only [Transform.apply, Matrix3.mulVec_add, Matrix3.mulVec_neg, h]
  ext <;> simp only [Vector3.add_def, Vector3.neg_def] <;> ring

theorem rotateTransform_eq {K : Type} [LinearOrderedField K] (F : MathFns K)
    (mv : Matrix3 K) (d c : Vector3 K) :
    Manipulator.rotateTransform F mv d c =
      ⟨(Matrix3.identity.mul
          (angleAxis F (d.y * Manipulator.ROTATION_SPEED) (normalized F mv.row0))).mul
          (angleAxis F (d.x * Manipulator.ROTATION_SPEED) (normalized F mv.row1)),
        c + ((Matrix3.identity.mul
          (angleAxis F (d.y * Manipulator.ROTATION_SPEED) (normalized F mv.row0))).mul
          (angleAxis F (d.x * Manipulator.ROTATION_SPEED) (normalized F mv.row1))).mulVec
            (-c)⟩ := rfl

/-- Point by point, the transform of `rotate (-d) c` undoes the transform of
`rotate d c` when one component of `d` is zero and the view axes are non-zero. -/
theorem rotateTransform_round_trip (mv : Matrix3 ℝ) (d c p : Vector3 ℝ)
    (hd : d.x = 0 ∨ d.y = 0) (h0 : mv.row0 ≠ 0) (h1 : mv.row1 ≠ 0) :
    (Manipulator.rotateTransform ⟨Real.cos, Real.sin, Real.sqrt⟩ mv (-d) c).apply
      ((Manipulator.rotateTransform ⟨Real.cos, Real.sin, Real.sqrt⟩ mv d c).apply p) = p := by
  rw [rotateTransform_eq, rotateTransform_eq]
  have hnx : (-d).x = -d.x := rfl
  have hny : (-d).y = -d.y := rfl
  rcases hd with hx | hy
  · have e1 : d.x * (Manipulator.ROTATION_SPEED : ℝ) = 0 := by rw [hx, zero_mul]
    have e2 : (-d).x * (Manipulator.ROTATION_SPEED : ℝ) = 0 := by rw [hnx, hx, neg_zero, zero_mul]
    rw [e1, e2, angleAxis_zero _ Real.cos_zero Real.sin_zero, hny, neg_mul]
    simp only [Matrix3.identity_mul, Matrix3.mul_identity]
    apply apply_undo
    intro q
    exact angleAxis_neg_mulVec ⟨Real.cos, Real.sin, Real.sqrt⟩ _ _ q (Real.cos_neg _) (Real.sin_neg _)
      (Real.cos_sq_add_sin_sq _) (normalized_squaredNorm _ h0)
  · have e1 : d.y * (Manipulator.ROTATION_SPEED : ℝ) = 0 := by rw [hy, zero_mul]
    have e2 : (-d).y * (Manipulator.ROTATION_SPEED : ℝ) = 0 := by rw [hny, hy, neg_zero, zero_mul]
    rw [e1, e2, angleAxis_zero _ Real.cos_zero Real.sin_zero, hnx, neg_mul]
    simp only [Matrix3.identity_mul, Matrix3.mul_identity]
    apply apply_undo
    intro q
    exact angleAxis_neg_mulVec ⟨Real.cos, Real.sin, Real.sqrt⟩ _ _ q (Real.cos_neg _) (Real.sin_neg _)
      (Real.cos_sq_add_sin_sq _) (normalized_squaredNorm _ h1)

theorem moveAtom_undo {K : Type} (f g : Vector3 K → Vector3 K) (h : ∀ p, g (f p) = p)
    (l : List (Atom K)) : (l.map (moveAtom f)).map (moveAtom g) = l := by
  rw [List.map_map]
  conv_rhs => rw [← List.map_id l]
  apply List.map_congr_left
  intro a _
  rcases a with ⟨p, sel⟩
  cases sel <;> simp [moveAtom, h]

/-- What `rotate` returns when both collaborators are present. -/
theorem rotate_eq_map {K : Type} [LinearOrderedField K] (F : MathFns K) (d c : Vector3 K)
    (s : Manipulator K) (mol : Molecule K) (renderer : GLRenderer K)
    (hmol : s.m_molecule = some mol) (hren : s.m_renderer = some renderer) :
    Manipulator.rotate F d c s =
      .ok { s with
        m_molecule := some { mol with
          atoms := mol.atoms.map
            (moveAtom (Manipulator.rotateTransform F renderer.camera.modelView d c).apply) } } := by
  unfold Manipulator.rotate
  rw [hren, hmol]
  simp only [rotateStep_eq_selStep, foldl_selStep_eq]

end RotateRoundTrip

/-- C5 (amended). Over exact real arithmetic, with a molecule and a renderer
present, for every selection, every centre `c`, every view transform whose
first two rows are non-zero and every delta `d` with `d.x = 0` or `d.y = 0`:
`rotate d c` succeeds, and `rotate (-d) c` applied next succeeds and gives
back the original tool state, so every atom is at its original position. -/
theorem rotate_round_trip_single_axis (s : Manipulator ℝ) (mol : Molecule ℝ)
    (renderer : GLRenderer ℝ) (d c : Vector3 ℝ)
    (hmol : s.m_molecule = some mol) (hren : s.m_renderer = some renderer)
    (hd : d.x = 0 ∨ d.y = 0)
    (h0 : renderer.camera.modelView.row0 ≠ 0) (h1 : renderer.camera.modelView.row1 ≠ 0) :
    ∃ s1 : Manipulator ℝ,
      Manipulator.rotate ⟨Real.cos, Real.sin, Real.sqrt⟩ d c s = .ok s1 ∧
      Manipulator.rotate ⟨Real.cos, Real.sin, Real.sqrt⟩ (-d) c s1 = .ok s := by
  refine ⟨_, rotate_eq_map _ d c s mol renderer hmol hren, ?_⟩
  have h2 := rotate_eq_map ⟨Real.cos, Real.sin, Real.sqrt⟩ (-d) c
    { s with
      m_molecule := some { mol with
        atoms := mol.atoms.map
          (moveAtom (Manipulator.rotateTransform ⟨Real.cos, Real.sin, Real.sqrt⟩
            renderer.camera.modelView d c).apply) } }
    _ renderer rfl hren
  rw [h2]
  simp only [moveAtom_undo _ _
    (rotateTransform_round_trip renderer.camera.modelView d c · hd h0 h1)]
  rcases s with ⟨m, r, pb, ca, ob, lp, l3⟩
  simp only at hmol
  subst hmol
  rfl

/-- Witness for C5 (amended): identity view, one selected atom at (0,0,1),
delta (0,1,0) about the origin. -/
theorem rotate_round_trip_single_axis_witness :
    ∃ s1 : Manipulator ℝ,
      Manipulator.rotate ⟨Real.cos, Real.sin, Real.sqrt⟩ ⟨0, 1, 0⟩ ⟨0, 0, 0⟩
        (cameraTool Matrix3.identity [⟨⟨0, 0, 1⟩, true⟩]) = .ok s1 ∧
      Manipulator.rotate ⟨Real.cos, Real.sin, Real.sqrt⟩ (-⟨0, 1, 0⟩) ⟨0, 0, 0⟩ s1 =
        .ok (cameraTool Matrix3.identity [⟨⟨0, 0, 1⟩, true⟩]) :=
  rotate_round_trip_single_axis (cameraTool Matrix3.identity [⟨⟨0, 0, 1⟩, true⟩])
    ⟨0, [⟨⟨0, 0, 1⟩, true⟩], false, 0⟩
    ⟨⟨Matrix3.identity, fun _ => 0, fun _ p => p⟩, fun _ _ => Identifier.invalid⟩
    ⟨0, 1, 0⟩ ⟨0, 0, 0⟩ rfl rfl (Or.inl rfl)
    (fun h => one_ne_zero (α := ℝ) (congrArg Vector3.x h))
    (fun h => one_ne_zero (α := ℝ) (congrArg Vector3.y h))

/-- C5 (counterexample). With the identity view, the origin as centre and one
selected atom at (0,0,1), `rotate (π, π, 0)` followed by `rotate (-π, -π, 0)`
leaves the atom at (0,1,0), not at (0,0,1): the two quarter turns about the
view X and Y axes are undone in the wrong order.  And with a view whose first
row is zero, `rotate (0, π, 0)` followed by `rotate (0, -π, 0)` leaves the
atom at the origin. -/
theorem rotate_round_trip_fails :
    rotateThereAndBack ⟨Real.cos, Real.sin, Real.sqrt⟩ ⟨Real.pi, Real.pi, 0⟩ ⟨0, 0, 0⟩
        (cameraTool Matrix3.identity [⟨⟨0, 0, 1⟩, true⟩]) = some [⟨0, 1, 0⟩] ∧
    (⟨0, 1, 0⟩ : Vector3 ℝ) ≠ ⟨0, 0, 1⟩ ∧
    rotateThereAndBack ⟨Real.cos, Real.sin, Real.sqrt⟩ ⟨0, Real.pi, 0⟩ ⟨0, 0, 0⟩
        (cameraTool ⟨⟨0, 0, 0⟩, ⟨0, 1, 0⟩, ⟨0, 0, 1⟩⟩ [⟨⟨0, 0, 1⟩, true⟩]) =
      some [⟨0, 0, 0⟩] ∧
    (⟨0, 0, 0⟩ : Vector3 ℝ) ≠ ⟨0, 0, 1⟩ := by
  have hhalf : Real.pi * (2⁻¹ : ℝ) = Real.pi / 2 := by ring
  have hc : Real.cos (Real.pi * (2⁻¹ : ℝ)) = 0 := by rw [hhalf, Real.cos_pi_div_two]
  have hs : Real.sin (Real.pi * (2⁻¹ : ℝ)) = 1 := by rw [hhalf, Real.sin_pi_div_two]
  refine ⟨?_, ?_, ?_, ?_⟩
  · unfold rotateThereAndBack
    rw [rotate_eq_map _ _ _ _ _ _ rfl rfl]
    simp only []
    rw [rotate_eq_map _ _ _ _ _ _ rfl rfl]
    simp [rotateTransform_eq, angleAxis, normalized, Vector3.squaredNorm, Vector3.divScalar,
      Manipulator.ROTATION_SPEED, Matrix3.identity, Matrix3.mul, Matrix3.mulVec, Matrix3.col0,
      Matrix3.col1, Matrix3.col2, Vector3.dot, Transform.apply, moveAtom, Vector3.add_def,
      Vector3.neg_def, hc, hs]
  · intro h
    exact one_ne_zero (α := ℝ) (congrArg Vector3.y h)
  · unfold rotateThereAndBack
    rw [rotate_eq_map _ _ _ _ _ _ rfl rfl]
    simp only []
    rw [rotate_eq_map _ _ _ _ _ _ rfl rfl]
    simp [rotateTransform_eq, angleAxis, normalized, Vector3.squaredNorm, Vector3.divScalar,
      Manipulator.ROTATION_SPEED, Matrix3.identity, Matrix3.mul, Matrix3.mulVec, Matrix3.col0,
      Matrix3.col1, Matrix3.col2, Vector3.dot, Transform.apply, moveAtom, Vector3.add_def,
      Vector3.neg_def, hc, hs]
  · intro h
    exact zero_ne_one (α := ℝ) (congrArg Vector3.z h)

/-! ## Scene rebuild -/

theorem updateScene_plugins_fold {M : Type} (mol : M) (plugins : List PluginId)
    (b : SceneBuild M) :
    plugins.foldl
      (fun b scenePlugin =>
        ({ moleculeNode := b.moleculeNode ++ [GroupOwner.engine scenePlugin],
           calls := b.calls ++
            [SceneCall.process scenePlugin mol, SceneCall.processEditable scenePlugin mol] } :
          SceneBuild M))
      b =
    { moleculeNode := b.moleculeNode ++ plugins.map GroupOwner.engine,
      calls := b.calls ++
        plugins.flatMap (fun p => [SceneCall.process p mol, SceneCall.processEditable p mol]) } := by
  induction plugins generalizing b with
  | nil => simp
  | cons p ps ih => simp [ih, List.append_assoc]

/-- C6 (amended). `updateScene` rebuilds the molecule node with, in this
order, one container per active scene plugin (in plugin order), one overlay
container for the active tool if there is one, and one overlay container for
the default tool if there is one, whether or not it is also the active tool;
each plugin is asked for `process` then `processEditable` on the model (or on
the fresh temporary model when the widget has none), each overlay container
comes with one `draw` call, and the rebuild ends with `resetGeometry` and
`update`. -/
theorem updateScene_builds_plugins_then_tool_overlays {M : Type} (fresh : M)
    (w : GLWidget M) :
    (GLWidget.updateScene fresh w).moleculeNode =
      w.activeScenePlugins.map GroupOwner.engine ++
        w.m_activeTool.toList.map GroupOwner.tool ++
        w.m_defaultTool.toList.map GroupOwner.tool ∧
    (GLWidget.updateScene fresh w).calls =
      w.activeScenePlugins.flatMap
          (fun p =>
            [SceneCall.process p (w.m_molecule.getD fresh),
              SceneCall.processEditable p (w.m_molecule.getD fresh)]) ++
        w.m_activeTool.toList.map SceneCall.draw ++
        w.m_defaultTool.toList.map SceneCall.draw ++
        [SceneCall.resetGeometry, SceneCall.update] := by
  unfold GLWidget.updateScene
  simp only [updateScene_plugins_fold]
  cases w.m_molecule <;> cases w.m_activeTool <;> cases w.m_defaultTool <;> simp

/-- C6 (counterexample). When tool 1 is both the active and the default tool,
`updateScene` creates two overlay containers for it, not one, and calls its
`draw` twice. -/
theorem updateScene_draws_shared_tool_twice :
    (GLWidget.updateScene () sameToolWidget).moleculeNode =
      [GroupOwner.tool 1, GroupOwner.tool 1] ∧
    (GLWidget.updateScene () sameToolWidget).moleculeNode ≠ [GroupOwner.tool 1] ∧
    (GLWidget.updateScene () sameToolWidget).calls.count (SceneCall.draw 1) = 2 := by
  decide

/-! ## Tool lookup by name -/

/-- C7 (the code at the failing input). With tool 1 registered under the
identifier "Manipulator", the display name "Manipulate tool" and the action
label "Manipulate": `setActiveTool("Manipulate tool")` changes nothing (the
active tool stays null), although `setDefaultTool("Manipulate tool")` makes
tool 1 the default tool and `setActiveTool` does select it by identifier and
by action label. -/
theorem setActiveTool_ignores_display_name :
    GLWidget.setActiveToolByName lookupTools "Manipulate tool" lookupWidget = lookupWidget ∧
    (GLWidget.setActiveToolByName lookupTools "Manipulate tool" lookupWidget).m_activeTool =
      none ∧
    (GLWidget.setDefaultToolByName lookupTools "Manipulate tool" lookupWidget).m_defaultTool =
      some 1 ∧
    (GLWidget.setActiveToolByName lookupTools "Manipulator" lookupWidget).m_activeTool =
      some 1 ∧
    (GLWidget.setActiveToolByName lookupTools "Manipulate" lookupWidget).m_activeTool =
      some 1 := by
  decide

/-! ## Mode derivation -/

/-- C8. `updatePressedButtons` derives the mode from the event's own buttons
and modifiers, whatever the previous mode, pressed mask and release flag are:
left button alone with no modifier gives Translation; right button alone, or
left button with the Control or the Meta modifier, gives Rotation; middle
button alone, or left button with the Shift modifier, gives ZoomTilt. -/
theorem mode_is_rederived_from_each_event {K : Type} (s : Manipulator K) (release : Bool)
    (e : QMouseEvent K) :
    (e.data.buttons = Qt.LeftButton ∧ e.data.modifiers = Qt.NoModifier →
      (Manipulator.updatePressedButtons e release s).m_currentAction =
        ToolAction.Translation) ∧
    (e.data.buttons = Qt.RightButton →
      (Manipulator.updatePressedButtons e release s).m_currentAction = ToolAction.Rotation) ∧
    (e.data.buttons = Qt.LeftButton ∧
        (e.data.modifiers = Qt.ControlModifier ∨ e.data.modifiers = Qt.MetaModifier) →
      (Manipulator.updatePressedButtons e release s).m_currentAction = ToolAction.Rotation) ∧
    (e.data.buttons = Qt.MiddleButton →
      (Manipulator.updatePressedButtons e release s).m_currentAction = ToolAction.ZoomTilt) ∧
    (e.data.buttons = Qt.LeftButton ∧ e.data.modifiers = Qt.ShiftModifier →
      (Manipulator.updatePressedButtons e release s).m_currentAction =
        ToolAction.ZoomTilt) := by
  have hLL : Qt.testFlag Qt.LeftButton Qt.LeftButton = true := by decide
  have hLM : Qt.testFlag Qt.LeftButton Qt.MiddleButton = false := by decide
  have hLR : Qt.testFlag Qt.LeftButton Qt.RightButton = false := by decide
  have hRL : Qt.testFlag Qt.RightButton Qt.LeftButton = false := by decide
  have hRM : Qt.testFlag Qt.RightButton Qt.MiddleButton = false := by decide
  have hRR : Qt.testFlag Qt.RightButton Qt.RightButton = true := by decide
  have hML : Qt.testFlag Qt.MiddleButton Qt.LeftButton = false := by decide
  have hMM : Qt.testFlag Qt.MiddleButton Qt.MiddleButton = true := by decide
  have hCN : (Qt.ControlModifier == Qt.NoModifier) = false := by decide
  have hCS : (Qt.ControlModifier == Qt.ShiftModifier) = false := by decide
  have hMN : (Qt.MetaModifier == Qt.NoModifier) = false := by decide
  have hMS : (Qt.MetaModifier == Qt.ShiftModifier) = false := by decide
  have hSN : (Qt.ShiftModifier == Qt.NoModifier) = false := by decide
  refine ⟨?_, ?_, ?_, ?_, ?_⟩
  · rintro ⟨hb, hm⟩
    simp [Manipulator.updatePressedButtons, hb, hm, hLL]
  · intro hb
    simp [Manipulator.updatePressedButtons, hb, hRL, hRM, hRR]
  · rintro ⟨hb, hm | hm⟩
    · simp [Manipulator.updatePressedButtons, hb, hm, hLL, hLM, hLR, hCN, hCS]
    · simp [Manipulator.updatePressedButtons, hb, hm, hLL, hLM, hLR, hMN, hMS]
  · intro hb
    simp [Manipulator.updatePressedButtons, hb, hML, hMM]
  · rintro ⟨hb, hm⟩
    simp [Manipulator.updatePressedButtons, hb, hm, hLL, hLM, hSN]

/-- Witness for C8: a drag that starts with the left button alone is in
Translation mode; when Shift goes down mid-drag the next event switches it to
ZoomTilt, and when Control replaces Shift the next event switches it to
Rotation. -/
theorem mode_changes_mid_drag_witness :
    (Manipulator.updatePressedButtons (mouseEvent Qt.LeftButton Qt.LeftButton Qt.NoModifier)
      false twoAtomTool).m_currentAction = ToolAction.Translation ∧
    (Manipulator.updatePressedButtons (mouseEvent Qt.LeftButton Qt.NoButton Qt.ShiftModifier)
      false
      (Manipulator.updatePressedButtons
        (mouseEvent Qt.LeftButton Qt.LeftButton Qt.NoModifier) false
        twoAtomTool)).m_currentAction = ToolAction.ZoomTilt ∧
    (Manipulator.updatePressedButtons
      (mouseEvent Qt.LeftButton Qt.NoButton Qt.ControlModifier) false
      (Manipulator.updatePressedButtons
        (mouseEvent Qt.LeftButton Qt.NoButton Qt.ShiftModifier) false
        (Manipulator.updatePressedButtons
          (mouseEvent Qt.LeftButton Qt.LeftButton Qt.NoModifier) false
          twoAtomTool))).m_currentAction = ToolAction.Rotation :=
  ⟨(mode_is_rederived_from_each_event twoAtomTool false
      (mouseEvent Qt.LeftButton Qt.LeftButton Qt.NoModifier)).1 ⟨rfl, rfl⟩,
   (mode_is_rederived_from_each_event _ false
      (mouseEvent Qt.LeftButton Qt.NoButton Qt.ShiftModifier)).2.2.2.2 ⟨rfl, rfl⟩,
   (mode_is_rederived_from_each_event _ false
      (mouseEvent Qt.LeftButton Qt.NoButton Qt.ControlModifier)).2.2.1 ⟨rfl, Or.inl rfl⟩⟩

/-! ## Press and release -/

/-- C9 (amended). `mousePressEvent` with a renderer present always succeeds.
When the pressed-button mask, after the event's buttons are folded in,
contains the left button, the handler hit-tests at the pointer location,
records the result, and accepts the event exactly when the hit is an atom
(so an event that arrives not accepted ends accepted iff the hit is an atom).
When the mask does not contain the left button, no hit test is recorded: the
recorded hit and the event are left as they were. -/
theorem press_hit_tests_when_left_button_is_down {K : Type} (e : QMouseEvent K)
    (s : Manipulator K) (renderer : GLRenderer K) (hren : s.m_renderer = some renderer) :
    ∃ (e' : QMouseEvent K) (s' : Manipulator K),
      Manipulator.mousePressEvent e s = .ok (e', s') ∧
      (Qt.testFlag (s.m_pressedButtons ||| e.data.buttons) Qt.LeftButton = true →
        s'.m_object = renderer.hit e.data.pos.1 e.data.pos.2 ∧
        e' = (if (renderer.hit e.data.pos.1 e.data.pos.2).type = PrimitiveType.AtomType
              then e.accept else e) ∧
        (e.accepted = false →
          (e'.accepted = true ↔
            (renderer.hit e.data.pos.1 e.data.pos.2).type = PrimitiveType.AtomType))) ∧
      (Qt.testFlag (s.m_pressedButtons ||| e.data.buttons) Qt.LeftButton = false →
        s'.m_object = s.m_object ∧ e' = e) := by
  unfold Manipulator.mousePressEvent
  rw [hren]
  by_cases hL : Qt.testFlag (s.m_pressedButtons ||| e.data.buttons) Qt.LeftButton = true
  · cases hm : s.m_molecule <;>
      cases ht : (renderer.hit e.data.pos.1 e.data.pos.2).type <;>
      simp [Manipulator.updatePressedButtons, hL, hm, ht, QEvent.accept] <;>
      exact ⟨_, _, ⟨rfl, rfl⟩, by simp⟩
  · have hL' : Qt.testFlag (s.m_pressedButtons ||| e.data.buttons) Qt.LeftButton = false := by
      simpa using hL
    cases hm : s.m_molecule <;> simp [Manipulator.updatePressedButtons, hL', hm] <;>
      exact ⟨_, _, ⟨rfl, rfl⟩, rfl, rfl⟩

/-- Witness for C9 (amended): a left-button press over an atom. -/
theorem press_hit_tests_when_left_button_is_down_witness :
    outcome (Manipulator.mousePressEvent
      (mouseEvent Qt.LeftButton Qt.LeftButton Qt.NoModifier) (pointerTool atomZero)) =
      some (true, some true, atomZero) ∧
    ∃ (e' : QMouseEvent ℤ) (s' : Manipulator ℤ),
      Manipulator.mousePressEvent (mouseEvent Qt.LeftButton Qt.LeftButton Qt.NoModifier)
        (pointerTool atomZero) = .ok (e', s') ∧
      (Qt.testFlag (Qt.NoButton ||| Qt.LeftButton) Qt.LeftButton = true →
        s'.m_object = atomZero ∧
        e' = (if atomZero.type = PrimitiveType.AtomType
              then (mouseEvent Qt.LeftButton Qt.LeftButton Qt.NoModifier).accept
              else mouseEvent Qt.LeftButton Qt.LeftButton Qt.NoModifier) ∧
        (false = false → (e'.accepted = true ↔ atomZero.type = PrimitiveType.AtomType))) ∧
      (Qt.testFlag (Qt.NoButton ||| Qt.LeftButton) Qt.LeftButton = false →
        s'.m_object = Identifier.invalid ∧
        e' = mouseEvent Qt.LeftButton Qt.LeftButton Qt.NoModifier) :=
  ⟨by decide,
   press_hit_tests_when_left_button_is_down
     (mouseEvent Qt.LeftButton Qt.LeftButton Qt.NoModifier) (pointerTool atomZero)
     ⟨⟨Matrix3.identity, fun _ => 0, fun _ p => p⟩, fun _ _ => atomZero⟩ rfl⟩

/-- C9 (counterexample). A right-button press over an atom, with no button
held before: the hit test at the pointer would return the atom, yet the
recorded hit stays invalid and the event is not accepted. -/
theorem right_button_press_records_no_hit :
    outcome (Manipulator.mousePressEvent
      (mouseEvent Qt.RightButton Qt.RightButton Qt.NoModifier) (pointerTool atomZero)) =
      some (false, some true, Identifier.invalid) ∧
    atomZero.type = PrimitiveType.AtomType ∧
    Identifier.invalid ≠ atomZero := by
  decide

/-- C10 (amended). `mouseReleaseEvent` with a renderer and a model present,
when the recorded hit is valid: the call succeeds and clears the model's
interactive hint; if the released button is the left or the right button the
recorded hit is reset to invalid and the event is accepted, and for any other
released button the recorded hit and the event are left as they were. -/
theorem release_with_valid_hit_clears_interactive {K : Type} (e : QMouseEvent K)
    (s : Manipulator K) (renderer : GLRenderer K) (mol : Molecule K)
    (hren : s.m_renderer = some renderer) (hmol : s.m_molecule = some mol)
    (hvalid : s.m_object.type ≠ PrimitiveType.InvalidType) :
    ∃ (e' : QMouseEvent K) (s' : Manipulator K),
      Manipulator.mouseReleaseEvent e s = .ok (e', s') ∧
      s'.m_molecule = some (mol.setInteractive false) ∧
      (mol.setInteractive false).interactive = false ∧
      (e.data.button = Qt.LeftButton ∨ e.data.button = Qt.RightButton →
        s'.m_object = Identifier.invalid ∧ e' = e.accept) ∧
      (¬(e.data.button = Qt.LeftButton ∨ e.data.button = Qt.RightButton) →
        s'.m_object = s.m_object ∧ e' = e) := by
  unfold Manipulator.mouseReleaseEvent
  rw [hren]
  by_cases hb : e.data.button = Qt.LeftButton ∨ e.data.button = Qt.RightButton
  · simp [Manipulator.updatePressedButtons, Manipulator.resetObject, hmol, hvalid, hb,
      Molecule.setInteractive]
    exact ⟨_, _, ⟨rfl, rfl⟩, rfl, rfl, rfl⟩
  · simp [Manipulator.updatePressedButtons, Manipulator.resetObject, hmol, hvalid, hb,
      Molecule.setInteractive]
    exact ⟨_, _, ⟨rfl, rfl⟩, rfl, rfl, rfl⟩

/-- Witness for C10 (amended): the left button is released after an atom was
picked. -/
theorem release_with_valid_hit_clears_interactive_witness :
    outcome (pressThenRelease (mouseEvent Qt.LeftButton Qt.LeftButton Qt.NoModifier)
      (mouseEvent Qt.NoButton Qt.LeftButton Qt.NoModifier) (pointerTool atomZero)) =
      some (true, some false, Identifier.invalid) ∧
    ∃ (e' : QMouseEvent ℤ) (s' : Manipulator ℤ),
      Manipulator.mouseReleaseEvent (mouseEvent Qt.NoButton Qt.LeftButton Qt.NoModifier)
        { pointerTool atomZero with m_object := atomZero } = .ok (e', s') ∧
      s'.m_molecule =
        some (Molecule.setInteractive ⟨0, [⟨⟨0, 0, 0⟩, false⟩], false, 0⟩ false) ∧
      (Molecule.setInteractive (⟨0, [⟨⟨0, 0, 0⟩, false⟩], false, 0⟩ : Molecule ℤ)
        false).interactive = false ∧
      (Qt.LeftButton = Qt.LeftButton ∨ Qt.LeftButton = Qt.RightButton →
        s'.m_object = Identifier.invalid ∧
        e' = (mouseEvent Qt.NoButton Qt.LeftButton Qt.NoModifier).accept) ∧
      (¬(Qt.LeftButton = Qt.LeftButton ∨ Qt.LeftButton = Qt.RightButton) →
        s'.m_object = atomZero ∧
        e' = mouseEvent Qt.NoButton Qt.LeftButton Qt.NoModifier) :=
  ⟨by decide,
   release_with_valid_hit_clears_interactive
     (mouseEvent Qt.NoButton Qt.LeftButton Qt.NoModifier)
     { pointerTool atomZero with m_object := atomZero }
     ⟨⟨Matrix3.identity, fun _ => 0, fun _ p => p⟩, fun _ _ => atomZero⟩
     ⟨0, [⟨⟨0, 0, 0⟩, false⟩], false, 0⟩ rfl rfl (by decide)⟩

/-- C10 (counterexample). A left-button press on empty space followed by the
release of that button leaves the interactive hint set; and when an atom was
picked with the left button, releasing the middle button while the left one is
still held leaves the recorded hit valid. -/
theorem release_leaves_hint_or_hit :
    outcome (pressThenRelease (mouseEvent Qt.LeftButton Qt.LeftButton Qt.NoModifier)
      (mouseEvent Qt.NoButton Qt.LeftButton Qt.NoModifier)
      (pointerTool Identifier.invalid)) =
      some (false, some true, Identifier.invalid) ∧
    outcome (pressThenRelease (mouseEvent Qt.LeftButton Qt.LeftButton Qt.NoModifier)
      (mouseEvent Qt.LeftButton Qt.MiddleButton Qt.NoModifier) (pointerTool atomZero)) =
      some (false, some false, atomZero) ∧
    atomZero.type ≠ PrimitiveType.InvalidType := by
  decide

/-! ## Pointer moves -/

section MoveLemmas

variable {K : Type}

theorem updatePressedButtons_keeps (e : QMouseEvent K) (release : Bool) (s : Manipulator K) :
    (Manipulator.updatePressedButtons e release s).m_molecule = s.m_molecule ∧
    (Manipulator.updatePressedButtons e release s).m_renderer = s.m_renderer ∧
    (Manipulator.updatePressedButtons e release s).m_object = s.m_object ∧
    (Manipulator.updatePressedButtons e release s).m_lastMouse3D = s.m_lastMouse3D ∧
    (Manipulator.updatePressedButtons e release s).m_lastMousePosition =
      s.m_lastMousePosition :=
  ⟨rfl, rfl, rfl, rfl, rfl⟩

/-- What `translate` returns when the molecule is present. -/
theorem translate_eq_map [Zero K] [Add K] (delta : Vector3 K) (s : Manipulator K)
    (mol : Molecule K) (hmol : s.m_molecule = some mol) :
    Manipulator.translate delta s =
      .ok { s with
        m_molecule := some { mol with
          atoms := mol.atoms.map (moveAtom (fun p => p + delta)) } } := by
  unfold Manipulator.translate
  rw [hmol]
  simp only [translateStep_eq_selStep, foldl_selStep_eq]

/-- What `tilt` returns when both collaborators are present. -/
theorem tilt_eq_map [LinearOrderedField K] (F : MathFns K) (d c : Vector3 K)
    (s : Manipulator K) (mol : Molecule K) (renderer : GLRenderer K)
    (hmol : s.m_molecule = some mol) (hren : s.m_renderer = some renderer) :
    Manipulator.tilt F d c s =
      .ok { s with
        m_molecule := some { mol with
          atoms := mol.atoms.map
            (moveAtom (Manipulator.tiltTransform F renderer.camera.modelView d c).apply) } } := by
  unfold Manipulator.tilt
  rw [hren, hmol]
  simp only [rotateStep_eq_selStep, foldl_selStep_eq]

theorem setAtomPosition3d_changed (m : Molecule K) (i : Nat) (p : Vector3 K) :
    (m.setAtomPosition3d i p).changed = m.changed := by
  unfold Molecule.setAtomPosition3d
  cases m.atoms[i]? <;> rfl

/-- With a molecule and a renderer present `mouseMoveEvent` completes, leaves
the event accepted and the molecule with one more change notification. -/
theorem mouseMoveEvent_completes [LinearOrderedField K] (F : MathFns K) (e : QMouseEvent K)
    (s : Manipulator K) (mol : Molecule K) (renderer : GLRenderer K)
    (hmol : s.m_molecule = some mol) (hren : s.m_renderer = some renderer) :
    ∃ (s' : Manipulator K) (mol' : Molecule K),
      Manipulator.mouseMoveEvent F e s = .ok (e.ignore.accept, s') ∧
      s'.m_molecule = some mol' ∧ mol'.changed = mol.changed + 1 := by
  unfold Manipulator.mouseMoveEvent
  have hk := updatePressedButtons_keeps e false s
  generalize Manipulator.updatePressedButtons e false s = s0 at hk
  obtain ⟨hm0, hr0, -, -, -⟩ := hk
  rw [hmol] at hm0
  rw [hren] at hr0
  simp only [hm0, hr0]
  split_ifs with h1 h2 h3 h4 h5
  · exact ⟨_, _, rfl, rfl, by simp [Molecule.emitChanged, setAtomPosition3d_changed]⟩
  · rw [translate_eq_map _ s0 mol hm0]
    exact ⟨_, _, rfl, rfl, rfl⟩
  · rw [rotate_eq_map F _ _ s0 mol renderer hm0 hr0]
    exact ⟨_, _, rfl, rfl, rfl⟩
  · rw [tilt_eq_map F _ _ s0 mol renderer hm0 hr0]
    exact ⟨_, _, rfl, rfl, rfl⟩
  · simp only [hm0]
    exact ⟨_, _, rfl, rfl, rfl⟩
  · simp only [hm0]
    exact ⟨_, _, rfl, rfl, rfl⟩

end MoveLemmas

/-- C11 (amended). `mouseMoveEvent` with a model present whose selection is
empty: when the recorded hit is invalid, or is an atom whose owning model is
not the live model, the move completes in every mode and changes no atom
position; the molecule only receives its change notification. -/
theorem move_without_target_on_empty_selection_moves_nothing {K : Type}
    [LinearOrderedField K] (F : MathFns K) (e : QMouseEvent K) (s : Manipulator K)
    (mol : Molecule K) (hmol : s.m_molecule = some mol)
    (hsel : mol.isSelectionEmpty = true)
    (hpick : s.m_object.type = PrimitiveType.InvalidType ∨
      (s.m_object.type = PrimitiveType.AtomType ∧ s.m_object.molecule ≠ some mol.ident)) :
    ∃ s' : Manipulator K,
      Manipulator.mouseMoveEvent F e s = .ok (e.ignore.accept, s') ∧
      s'.m_molecule = some mol.emitChanged ∧
      mol.emitChanged.atoms = mol.atoms ∧
      positionsAfter (Manipulator.mouseMoveEvent F e s) =
        some (mol.atoms.map (fun a => a.position3d)) := by
  have hk := updatePressedButtons_keeps e false s
  have hgoal : ∃ s' : Manipulator K,
      Manipulator.mouseMoveEvent F e s = .ok (e.ignore.accept, s') ∧
      s'.m_molecule = some mol.emitChanged := by
    unfold Manipulator.mouseMoveEvent
    generalize Manipulator.updatePressedButtons e false s = s0 at hk
    obtain ⟨hm0, -, ho0, -, -⟩ := hk
    rw [hmol] at hm0
    simp only [hm0, ho0, hsel]
    rcases hpick with hinv | ⟨hatom, hother⟩
    · simp [hinv, hm0]
    · simp [hatom, hother, hm0]
  obtain ⟨s', h1, h2⟩ := hgoal
  refine ⟨s', h1, h2, rfl, ?_⟩
  rw [h1]
  simp [positionsAfter, h2, Molecule.emitChanged]

/-- Witness for C11 (amended): no atom selected, nothing picked, left button
held; the atom stays at (4,5,6). -/
theorem move_without_target_on_empty_selection_witness :
    ∃ s' : Manipulator ℝ,
      Manipulator.mouseMoveEvent ⟨Real.cos, Real.sin, Real.sqrt⟩
        (mouseEvent Qt.LeftButton Qt.NoButton Qt.NoModifier)
        (moveTool [⟨⟨4, 5, 6⟩, false⟩] Identifier.invalid) =
        .ok ((mouseEvent Qt.LeftButton Qt.NoButton Qt.NoModifier).ignore.accept, s') ∧
      s'.m_molecule =
        some (Molecule.emitChanged ⟨0, [⟨⟨4, 5, 6⟩, false⟩], false, 0⟩) ∧
      (Molecule.emitChanged (⟨0, [⟨⟨4, 5, 6⟩, false⟩], false, 0⟩ : Molecule ℝ)).atoms =
        [⟨⟨4, 5, 6⟩, false⟩] ∧
      positionsAfter (Manipulator.mouseMoveEvent ⟨Real.cos, Real.sin, Real.sqrt⟩
        (mouseEvent Qt.LeftButton Qt.NoButton Qt.NoModifier)
        (moveTool [⟨⟨4, 5, 6⟩, false⟩] Identifier.invalid)) =
        some (List.map (fun a => a.position3d) [(⟨⟨4, 5, 6⟩, false⟩ : Atom ℝ)]) :=
  move_without_target_on_empty_selection_moves_nothing ⟨Real.cos, Real.sin, Real.sqrt⟩
    (mouseEvent Qt.LeftButton Qt.NoButton Qt.NoModifier)
    (moveTool [⟨⟨4, 5, 6⟩, false⟩] Identifier.invalid)
    ⟨0, [⟨⟨4, 5, 6⟩, false⟩], false, 0⟩ rfl rfl (Or.inl rfl)

/-- C11 (counterexample). With one selected atom at the origin, the left
button held with no modifier and the pointer unprojected to (1,0,0): a move
event shifts the atom to (1,0,0) although the recorded hit is invalid, and
just the same when the recorded hit is an atom of another model (identity 9,
the live model having identity 0). -/
theorem move_with_selection_ignores_the_pick :
    positionsAfter (Manipulator.mouseMoveEvent ⟨Real.cos, Real.sin, Real.sqrt⟩
      (mouseEvent Qt.LeftButton Qt.NoButton Qt.NoModifier)
      (moveTool [⟨⟨0, 0, 0⟩, true⟩] Identifier.invalid)) = some [⟨1, 0, 0⟩] ∧
    positionsAfter (Manipulator.mouseMoveEvent ⟨Real.cos, Real.sin, Real.sqrt⟩
      (mouseEvent Qt.LeftButton Qt.NoButton Qt.NoModifier)
      (moveTool [⟨⟨0, 0, 0⟩, true⟩] ⟨PrimitiveType.AtomType, some 9, 0⟩)) =
      some [⟨1, 0, 0⟩] ∧
    (⟨1, 0, 0⟩ : Vector3 ℝ) ≠ ⟨0, 0, 0⟩ := by
  have hLL : Qt.testFlag Qt.LeftButton Qt.LeftButton = true := by decide
  have hNN : (Qt.NoModifier == Qt.NoModifier) = true := by decide
  refine ⟨?_, ?_, ?_⟩
  · simp [positionsAfter, Manipulator.mouseMoveEvent, Manipulator.updatePressedButtons,
      moveTool, mouseEvent, Molecule.isSelectionEmpty, hLL, hNN, QEvent.ignore,
      Manipulator.translate, Manipulator.translateStep, Molecule.atomCount, List.range_succ,
      Molecule.atomSelected, Molecule.atomPosition3d, Molecule.setAtomPosition3d,
      Molecule.emitChanged, Vector3.add_def, Vector3.sub_def, Vector3.zero_def,
      Identifier.invalid]
  · simp [positionsAfter, Manipulator.mouseMoveEvent, Manipulator.updatePressedButtons,
      moveTool, mouseEvent, Molecule.isSelectionEmpty, hLL, hNN, QEvent.ignore,
      Manipulator.translate, Manipulator.translateStep, Molecule.atomCount, List.range_succ,
      Molecule.atomSelected, Molecule.atomPosition3d, Molecule.setAtomPosition3d,
      Molecule.emitChanged, Vector3.add_def, Vector3.sub_def, Vector3.zero_def]
  · intro h
    exact one_ne_zero (α := ℝ) (congrArg Vector3.x h)

/-! ## Missing collaborators -/

/-- C12 (amended). `mousePressEvent` and `mouseReleaseEvent` with a missing
collaborator: when the renderer is absent each of them returns at once,
leaving the event, the tool's interaction state and the model exactly as they
were; when the model is absent each of them completes without a fault and the
model stays absent (the interaction state is updated as usual). -/
theorem press_and_release_tolerate_missing_collaborators {K : Type} (e : QMouseEvent K)
    (s : Manipulator K) :
    (s.m_renderer = none →
      Manipulator.mousePressEvent e s = .ok (e, s) ∧
      Manipulator.mouseReleaseEvent e s = .ok (e, s)) ∧
    (s.m_molecule = none →
      (∃ (e1 : QMouseEvent K) (s1 : Manipulator K),
        Manipulator.mousePressEvent e s = .ok (e1, s1) ∧ s1.m_molecule = none) ∧
      (∃ (e2 : QMouseEvent K) (s2 : Manipulator K),
        Manipulator.mouseReleaseEvent e s = .ok (e2, s2) ∧ s2.m_molecule = none)) := by
  constructor
  · intro hren
    unfold Manipulator.mousePressEvent Manipulator.mouseReleaseEvent
    rw [hren]
    exact ⟨rfl, rfl⟩
  · intro hmol
    have hk1 := (updatePressedButtons_keeps e false s).1
    have hk2 := (updatePressedButtons_keeps e true s).1
    rw [hmol] at hk1 hk2
    unfold Manipulator.mousePressEvent Manipulator.mouseReleaseEvent
    cases s.m_renderer with
    | none => exact ⟨⟨_, _, rfl, hmol⟩, ⟨_, _, rfl, hmol⟩⟩
    | some renderer =>
      constructor
      · simp only [hk1]
        split_ifs
        · split
          · exact ⟨_, _, rfl, rfl⟩
          · exact ⟨_, _, rfl, rfl⟩
        · exact ⟨_, _, rfl, rfl⟩
      · simp only [hk2]
        split_ifs
        · exact ⟨_, _, rfl, hk2⟩
        · exact ⟨_, _, rfl, hk2⟩
        · exact ⟨_, _, rfl, hk2⟩

/-- Witness for C12 (amended): a left-button press and its release on a tool
without a renderer change nothing. -/
theorem press_and_release_without_renderer_witness :
    Manipulator.mousePressEvent (mouseEvent Qt.LeftButton Qt.LeftButton Qt.NoModifier)
        { pointerTool atomZero with m_renderer := none } =
      .ok (mouseEvent Qt.LeftButton Qt.LeftButton Qt.NoModifier,
        { pointerTool atomZero with m_renderer := none }) ∧
    Manipulator.mouseReleaseEvent (mouseEvent Qt.LeftButton Qt.LeftButton Qt.NoModifier)
        { pointerTool atomZero with m_renderer := none } =
      .ok (mouseEvent Qt.LeftButton Qt.LeftButton Qt.NoModifier,
        { pointerTool atomZero with m_renderer := none }) :=
  (press_and_release_tolerate_missing_collaborators
    (mouseEvent Qt.LeftButton Qt.LeftButton Qt.NoModifier)
    { pointerTool atomZero with m_renderer := none }).1 rfl

/-- C12 (counterexample). `mouseMoveEvent` dereferences what is missing: with
the model absent it faults, and with the renderer absent and an atom selected
it faults too.  And `mousePressEvent` with the model absent but the renderer
present does change the interaction state: the pressed-button mask goes from
none to the left button and the recorded hit from invalid to the atom. -/
theorem missing_collaborators_are_not_no_ops :
    Manipulator.mouseMoveEvent ⟨Real.cos, Real.sin, Real.sqrt⟩
        (mouseEvent Qt.LeftButton Qt.NoButton Qt.NoModifier)
        { moveTool [(⟨⟨0, 0, 0⟩, true⟩ : Atom ℝ)] Identifier.invalid with
          m_molecule := none } =
      .error Fault.nullDereference ∧
    Manipulator.mouseMoveEvent ⟨Real.cos, Real.sin, Real.sqrt⟩
        (mouseEvent Qt.LeftButton Qt.NoButton Qt.NoModifier)
        { moveTool [(⟨⟨0, 0, 0⟩, true⟩ : Atom ℝ)] Identifier.invalid with
          m_renderer := none } =
      .error Fault.nullDereference ∧
    (match Manipulator.mousePressEvent (mouseEvent Qt.LeftButton Qt.LeftButton Qt.NoModifier)
        { pointerTool atomZero with m_molecule := none } with
      | .ok (_, s) => some (s.m_pressedButtons, s.m_object)
      | .error _ => none) = some (Qt.LeftButton, atomZero) ∧
    (pointerTool atomZero).m_pressedButtons = Qt.NoButton ∧
    (pointerTool atomZero).m_object = Identifier.invalid ∧
    Qt.LeftButton ≠ Qt.NoButton ∧ atomZero ≠ Identifier.invalid := by
  refine ⟨?_, ?_, ?_, ?_, ?_, ?_, ?_⟩
  · rfl
  · simp [Manipulator.mouseMoveEvent, Manipulator.updatePressedButtons, moveTool,
      Molecule.isSelectionEmpty]
  · decide
  · rfl
  · rfl
  · decide
  · decide

/-! ## The Manipulator as the active tool -/

/-- C14. `mouseMoveEvent` with a model and a renderer present, whatever the
recorded hit, the selection and the buttons are: the call completes, the
event ends accepted, and the model has received exactly one change
notification.  Consequently, when the Manipulator in that state is the active
tool of a `GLWidget`, `GLWidget::mouseMoveEvent` invokes the active tool's
handler only: neither the default tool's handler nor the base widget's. -/
theorem manipulator_consumes_every_move_event {K : Type} [LinearOrderedField K]
    (F : MathFns K) (e : QMouseEvent K) (s : Manipulator K) (mol : Molecule K)
    (renderer : GLRenderer K)
    (hmol : s.m_molecule = some mol) (hren : s.m_renderer = some renderer) :
    (∃ (e' : QMouseEvent K) (s' : Manipulator K) (mol' : Molecule K),
      Manipulator.mouseMoveEvent F e s = .ok (e', s') ∧ e'.isAccepted = true ∧
      s'.m_molecule = some mol' ∧ mol'.changed = mol.changed + 1) ∧
    ∀ (M T : Type) (others : Handlers (MouseData K) (Manipulator K × T)) (manip : ToolId)
      (w : GLWidget M) (rest : T), w.m_activeTool = some manip →
      (GLWidget.mouseMoveEvent (manipulatorHandlers F manip others) w e
        (.ok (s, rest))).invoked = [Callee.activeTool] ∧
      (GLWidget.mouseMoveEvent (manipulatorHandlers F manip others) w e
        (.ok (s, rest))).invoked.count Callee.defaultTool = 0 ∧
      (GLWidget.mouseMoveEvent (manipulatorHandlers F manip others) w e
        (.ok (s, rest))).invoked.count Callee.baseWidget = 0 := by
  constructor
  · obtain ⟨s', mol', h1, h2, h3⟩ := mouseMoveEvent_completes F e s mol renderer hmol hren
    exact ⟨_, s', mol', h1, rfl, h2, h3⟩
  · intro M T others manip w rest hact
    obtain ⟨s', mol', h1, -, -⟩ :=
      mouseMoveEvent_completes F e.ignore s mol renderer hmol hren
    have hinv := (dispatchEvent_invoked (manipulatorHandlers F manip others)
      EventKind.mouseMove w e (.ok (s, rest))).1
    have hA : (afterActiveTool (manipulatorHandlers F manip others) EventKind.mouseMove w e
        (.ok (s, rest))).1.isAccepted = true := by
      simp [afterActiveTool, hact, manipulatorHandlers, h1, liftHandlerResult,
        QEvent.isAccepted, QEvent.accept]
    have hD : (afterDefaultTool (manipulatorHandlers F manip others) EventKind.mouseMove w e
        (.ok (s, rest))).1.isAccepted = true := by
      unfold afterDefaultTool
      cases w.m_defaultTool with
      | none => exact hA
      | some t => simp [hA]
    have hlist : (GLWidget.mouseMoveEvent (manipulatorHandlers F manip others) w e
        (.ok (s, rest))).invoked = [Callee.activeTool] := by
      unfold GLWidget.mouseMoveEvent
      rw [hinv]
      simp [hact, hA, hD]
    rw [hlist]
    exact ⟨rfl, by decide, by decide⟩

/-- Witness for C14: the Manipulator is tool 1, active on a widget whose
default tool is tool 2; nothing is picked, nothing selected, no button held. -/
theorem manipulator_consumes_every_move_event_witness :
    (GLWidget.mouseMoveEvent
      (manipulatorHandlers ⟨Real.cos, Real.sin, Real.sqrt⟩ 1
        (idleHandlers : Handlers (MouseData ℝ) (Manipulator ℝ × Unit)))
      twoToolWidget (mouseEvent Qt.NoButton Qt.NoButton Qt.NoModifier)
      (.ok (moveTool [⟨⟨4, 5, 6⟩, false⟩] Identifier.invalid, ()))).invoked =
      [Callee.activeTool] :=
  ((manipulator_consumes_every_move_event ⟨Real.cos, Real.sin, Real.sqrt⟩
      (mouseEvent Qt.NoButton Qt.NoButton Qt.NoModifier)
      (moveTool [⟨⟨4, 5, 6⟩, false⟩] Identifier.invalid)
      ⟨0, [⟨⟨4, 5, 6⟩, false⟩], false, 0⟩
      ⟨⟨Matrix3.identity, fun _ => ⟨1, 0, 0⟩, fun _ p => p⟩, fun _ _ => Identifier.invalid⟩
      rfl rfl).2 Unit Unit idleHandlers 1 twoToolWidget () rfl).1

/-! ## The centroid of the selection -/

section Centroid

variable {K : Type}

/-- What the centroid loop body does with one atom. -/
theorem centroidStep_eq [Zero K] [Add K] (m : Molecule K) (acc : Vector3 K × Nat) (i : Nat) :
    Manipulator.centroidStep m acc i =
      match m.atoms[i]? with
      | some a => if a.selected then (acc.1 + a.position3d, acc.2 + 1) else acc
      | none => acc := by
  unfold Manipulator.centroidStep Molecule.atomSelected Molecule.atomPosition3d
  cases m.atoms[i]? with
  | none => simp
  | some a => cases hs : a.selected <;> simp [hs]

/-- The index loop over the atoms is a fold over the atom list. -/
theorem foldl_centroidStep_take [Zero K] [Add K] (m : Molecule K) (acc : Vector3 K × Nat)
    (n : Nat) :
    (List.range n).foldl (Manipulator.centroidStep m) acc =
      (m.atoms.take n).foldl
        (fun acc a => if a.selected then (acc.1 + a.position3d, acc.2 + 1) else acc) acc := by
  induction n with
  | zero => simp
  | succ n ih =>
    rw [List.range_succ, List.foldl_append, ih, List.take_succ, List.foldl_append]
    simp only [List.foldl_cons, List.foldl_nil]
    rw [centroidStep_eq]
    cases m.atoms[n]? <;> simp

/-- A fold of the loop body adds up the selected positions and counts them. -/
theorem foldl_centroid_sum [Field K] (l : List (Atom K)) (acc : Vector3 K × Nat) :
    l.foldl (fun acc a => if a.selected then (acc.1 + a.position3d, acc.2 + 1) else acc) acc =
      (⟨acc.1.x + (((l.filter (fun a => a.selected)).map (fun a => a.position3d)).map
            (fun p => p.x)).sum,
         acc.1.y + (((l.filter (fun a => a.selected)).map (fun a => a.position3d)).map
            (fun p => p.y)).sum,
         acc.1.z + (((l.filter (fun a => a.selected)).map (fun a => a.position3d)).map
            (fun p => p.z)).sum⟩,
        acc.2 + ((l.filter (fun a => a.selected)).map (fun a => a.position3d)).length) := by
  induction l generalizing acc with
  | nil => simp
  | cons a l ih =>
    rw [List.foldl_cons, ih]
    cases hs : a.selected
    · simp [hs]
    · simp only [hs, if_true, List.filter_cons, List.map_cons, List.sum_cons, List.length_cons,
        Vector3.add_def]
      refine Prod.ext (Vector3.ext ?_ ?_ ?_) ?_
      · simp only []; ring
      · simp only []; ring
      · simp only []; ring
      · simp only []; omega

end Centroid

/-- C13. The centroid that `mouseMoveEvent` computes for Rotate and Tilt
(the loop started from the origin, followed by the guarded division) is the
origin when no atom is selected, so nothing is divided by zero, and otherwise
the arithmetic mean of the positions of the selected atoms. -/
theorem selection_centroid_is_the_mean_of_the_selected_atoms {K : Type} [Field K]
    (mol : Molecule K) :
    Manipulator.selectionCentroid mol 0 =
      if (selectedPositions mol).length = 0 then (⟨0, 0, 0⟩ : Vector3 K)
      else arithmeticMean (selectedPositions mol) := by
  unfold Manipulator.selectionCentroid
  rw [show mol.atomCount = mol.atoms.length from rfl, foldl_centroidStep_take,
    List.take_length, foldl_centroid_sum]
  unfold selectedPositions arithmeticMean
  by_cases h : ((mol.atoms.filter (fun a => a.selected)).map
      (fun a => a.position3d)).length = 0
  · have hnil : (mol.atoms.filter (fun a => a.selected)).map (fun a => a.position3d) = [] :=
      List.length_eq_zero.mp h
    simp [hnil, Vector3.zero_def]
  · have hlen : 0 < ((mol.atoms.filter (fun a => a.selected)).map
        (fun a => a.position3d)).length := Nat.pos_of_ne_zero h
    simp only [h, if_false, Nat.zero_add, hlen, if_true, Vector3.divScalar, Vector3.zero_def,
      zero_add]

/-- Witness for C13: atoms at (1,0,0) and (-1,0,0), both selected, have the
centroid (0,0,0); and a molecule with no atom selected has the origin. -/
theorem selection_centroid_witness :
    Manipulator.selectionCentroid oppositeAtoms 0 = ⟨0, 0, 0⟩ ∧
    Manipulator.selectionCentroid dialogMolecule 0 = ⟨1, 0, 0⟩ ∧
    Manipulator.selectionCentroid (⟨0, [⟨⟨4, 5, 6⟩, false⟩], false, 0⟩ : Molecule ℚ) 0 =
      ⟨0, 0, 0⟩ := by
  refine ⟨?_, ?_, ?_⟩
  · rw [selection_centroid_is_the_mean_of_the_selected_atoms]
    norm_num [selectedPositions, arithmeticMean, oppositeAtoms]
  · rw [selection_centroid_is_the_mean_of_the_selected_atoms]
    norm_num [selectedPositions, arithmeticMean, dialogMolecule]
  · rw [selection_centroid_is_the_mean_of_the_selected_atoms]
    norm_num [selectedPositions, arithmeticMean]

end Avogadro
